import Mathlib

/-!
# A shallow embedding of the `runes` NES emulator core

This file models the CPU, bus, PPU and cartridge loader of the `runes`
emulator (src/cpu.rs, src/bus.rs, src/ppu.rs, src/cartridge.rs) and proves
properties of the model.  Machine integers are represented as `Nat` with
explicit masking (`% 256`, `% 65536`, `&&&`) exactly where the Rust code
truncates (release-mode wrapping semantics); byte arrays are represented as
total functions `Nat → Nat`; the fallible cartridge loader is modelled over
a `List Nat` of input bytes with Rust panics (`unwrap` on `Err`) made
explicit.  The per-opcode dispatch table lives in `src/opcodes.rs`, which is
not part of the sources at hand; every definition that consults it is
parametrised by a `Lookup` function, and concrete instantiations used in
example runs are modelled from the specification's (standard 6502) table.
-/

namespace Runes

/-- Nametable mirroring tag (src/cartridge.rs, `Mirroring`). -/
inductive Mirroring where
  | horizontal
  | vertical
  | fourScreen
deriving DecidableEq

/-- Addressing modes of the 6502 core (src/cpu.rs, `AddressingMode`). -/
inductive AddressingMode where
  | IMP | IMM | ZP0 | ZPX | ZPY | REL | ABS | ABX | ABY | IND | IZX | IZY
deriving DecidableEq

/-- Operation tags of the 6502 core (src/opcodes.rs, `Opcode`; the variant
list is visible from the exhaustive dispatch in `CPU::clock`). -/
inductive OpKind where
  | ADC | AND | ASL | BCC | BCS | BEQ | BIT | BMI | BNE | BPL | BRK
  | BVC | BVS | CLC | CLD | CLI | CLV | CMP | CPX | CPY | DEC | DEX
  | DEY | EOR | INC | INX | INY | JMP | JSR | LDA | LDX | LDY | LSR
  | NOP | ORA | PHA | PHP | PLA | PLP | ROL | ROR | RTI | RTS | SBC
  | SEC | SED | SEI | STA | STX | STY | TAX | TAY | TSX | TXA | TXS
  | TYA | XXX
deriving DecidableEq

/-- One entry of the 256-entry instruction dispatch table
(src/opcodes.rs, `INSTRUCTION_LOOKUP`). -/
structure Instr where
  operate : OpKind
  addrmode : AddressingMode
  cycles : Nat

/-- The dispatch table itself, indexed by opcode byte.  The table's
contents live in src/opcodes.rs (not among the sources), so definitions are
parametrised over it. -/
def Lookup : Type := Nat → Instr

/-- PPU state (src/ppu.rs, `struct PPU`).  Byte arrays are total
functions from index to byte. -/
structure Ppu where
  chrRom : Nat → Nat
  vram : Nat → Nat
  oam : Nat → Nat
  palette : Nat → Nat
  addressRegister : Nat
  addressLatch : Bool
  controlRegister : Nat
  nmi : Bool
  maskRegister : Nat
  statusRegister : Nat
  dataBuffer : Nat
  mirroring : Mirroring
  scanline : Nat
  cycle : Nat
  frameComplete : Bool
  frameBuffer : Nat → Nat
  backgroundIndexBuffer : Nat → Nat
  chrIsRam : Bool
  oamAddr : Nat
  scrollX : Nat
  scrollY : Nat

/-- Model of `PPU::new` (src/ppu.rs).  The OAM is initialised to `0xFF`, everything
else to zero; the address latch starts `true`. -/
def ppuNew (chrRom : Nat → Nat) (mirroring : Mirroring) (chrIsRam : Bool) : Ppu where
  chrRom := chrRom
  vram := fun _ => 0
  oam := fun _ => 0xFF
  palette := fun _ => 0
  addressRegister := 0
  addressLatch := true
  controlRegister := 0
  nmi := false
  maskRegister := 0
  statusRegister := 0
  dataBuffer := 0
  mirroring := mirroring
  scanline := 0
  cycle := 0
  frameComplete := false
  frameBuffer := fun _ => 0
  backgroundIndexBuffer := fun _ => 0
  chrIsRam := chrIsRam
  oamAddr := 0
  scrollX := 0
  scrollY := 0

/-- Model of `PPU::mirror_vram_addr` (src/ppu.rs). -/
def mirrorVramAddr (m : Mirroring) (addr : Nat) : Nat :=
  let mirroredVram := addr &&& 0x2FFF
  let vramIndex := mirroredVram - 0x2000
  let nameTable := vramIndex / 0x0400
  match m with
  | .vertical =>
      if nameTable = 2 ∨ nameTable = 3 then vramIndex - 0x0800 else vramIndex
  | .horizontal =>
      if nameTable = 1 ∨ nameTable = 2 then vramIndex - 0x0400
      else if nameTable = 3 then vramIndex - 0x0800
      else vramIndex
  | .fourScreen => vramIndex

/-- Palette index aliasing of `PPU::ppu_read`/`ppu_write`: indices
0x10/0x14/0x18/0x1C alias 0x00/0x04/0x08/0x0C. -/
def paletteIndexAlias (i : Nat) : Nat :=
  if i = 0x10 then 0x00
  else if i = 0x14 then 0x04
  else if i = 0x18 then 0x08
  else if i = 0x1C then 0x0C
  else i

/-- Model of `PPU::ppu_read` (src/ppu.rs).  The recursive call on the
0x3000–0x3EFF mirror is inlined: `addr - 0x1000` always lands in the
nametable range 0x2000–0x2EFF. -/
def ppuRead (p : Ppu) (addr0 : Nat) : Nat :=
  let addr := addr0 &&& 0x3FFF
  if addr ≤ 0x1FFF then p.chrRom addr
  else if addr ≤ 0x2FFF then p.vram (mirrorVramAddr p.mirroring addr)
  else if addr ≤ 0x3EFF then p.vram (mirrorVramAddr p.mirroring (addr - 0x1000))
  else p.palette (paletteIndexAlias ((addr - 0x3F00) % 32)) &&& 0x3F

/-- Model of `PPU::ppu_write` (src/ppu.rs), with the 0x3000–0x3EFF mirror inlined
as in `ppuRead`.  CHR is written only when it is CHR-RAM; palette writes
store `data & 0x3F`. -/
def ppuWrite (p : Ppu) (addr0 : Nat) (data : Nat) : Ppu :=
  let addr := addr0 &&& 0x3FFF
  if addr ≤ 0x1FFF then
    if p.chrIsRam then
      { p with chrRom := fun j => if j = addr then data else p.chrRom j }
    else p
  else if addr ≤ 0x2FFF then
    let index := mirrorVramAddr p.mirroring addr
    { p with vram := fun j => if j = index then data else p.vram j }
  else if addr ≤ 0x3EFF then
    let index := mirrorVramAddr p.mirroring (addr - 0x1000)
    { p with vram := fun j => if j = index then data else p.vram j }
  else
    let index := paletteIndexAlias ((addr - 0x3F00) % 32)
    { p with palette := fun j => if j = index then data &&& 0x3F else p.palette j }

/-- Model of `PPU::write_to_address_register` (src/ppu.rs). -/
def writeToAddressRegister (p : Ppu) (data : Nat) : Ppu :=
  let a :=
    if p.addressLatch then (p.addressRegister &&& 0x00FF) ||| (data <<< 8)
    else (p.addressRegister &&& 0xFF00) ||| data
  { p with addressRegister := a &&& 0x3FFF, addressLatch := ! p.addressLatch }

/-- Model of `PPU::increment_address_register` (src/ppu.rs): 16-bit wrapping add
then mask to 14 bits. -/
def incrementAddressRegister (p : Ppu) (increment : Nat) : Ppu :=
  { p with addressRegister := ((p.addressRegister + increment) % 65536) &&& 0x3FFF }

/-- Model of `PPU::increment_vram_addr` (src/ppu.rs): +1 or +32 depending on
control-register bit 2. -/
def incrementVramAddr (p : Ppu) : Ppu :=
  let increment := if p.controlRegister &&& 0x04 = 0 then 1 else 32
  incrementAddressRegister p increment

/-- Model of `PPU::read_status_register` (src/ppu.rs): top three bits of status,
low five bits of the data buffer; clears vertical blank and resets the
address latch. -/
def readStatusRegister (p : Ppu) : Nat × Ppu :=
  let status := (p.statusRegister &&& 0xE0) ||| (p.dataBuffer &&& 0x1F)
  (status, { p with statusRegister := p.statusRegister &&& 0x7F, addressLatch := true })

/-- Model of `PPU::write_to_scroll_register` (src/ppu.rs). -/
def writeToScrollRegister (p : Ppu) (data : Nat) : Ppu :=
  if p.addressLatch then { p with scrollX := data, addressLatch := false }
  else { p with scrollY := data, addressLatch := true }

/-- Model of `PPU::write_to_oam_data` (src/ppu.rs): store at the OAM address,
then increment it with 8-bit wrap. -/
def writeToOamData (p : Ppu) (data : Nat) : Ppu :=
  { p with oam := fun j => if j = p.oamAddr then data else p.oam j,
           oamAddr := (p.oamAddr + 1) % 256 }

/-- Model of `PPU::read_data` (src/ppu.rs): buffered VRAM read through 0x2007,
with the palette range returned directly; always increments the address. -/
def readData (p : Ppu) : Nat × Ppu :=
  let addr := p.addressRegister
  let r :=
    if 0x3F00 ≤ addr ∧ addr ≤ 0x3FFF then
      (ppuRead p addr, { p with dataBuffer := ppuRead p (addr - 0x1000) })
    else
      (p.dataBuffer, { p with dataBuffer := ppuRead p addr })
  (r.1, incrementVramAddr r.2)

/-- Model of `PPU::write_data` (src/ppu.rs). -/
def writeData (p : Ppu) (data : Nat) : Ppu :=
  incrementVramAddr (ppuWrite p p.addressRegister data)

/-- The 64-colour master palette (src/ppu.rs, `SYSTEM_PALLETE`),
row-major `(R, G, B)` triples. -/
def systemPalette : List (Nat × Nat × Nat) :=
  [(0x80,0x80,0x80),(0x00,0x3D,0xA6),(0x00,0x12,0xB0),(0x44,0x00,0x96),
   (0xA1,0x00,0x5E),(0xC7,0x00,0x28),(0xBA,0x06,0x00),(0x8C,0x17,0x00),
   (0x5C,0x2F,0x00),(0x10,0x45,0x00),(0x05,0x4A,0x00),(0x00,0x47,0x2E),
   (0x00,0x41,0x66),(0x00,0x00,0x00),(0x05,0x05,0x05),(0x05,0x05,0x05),
   (0xC7,0xC7,0xC7),(0x00,0x77,0xFF),(0x21,0x55,0xFF),(0x82,0x37,0xFA),
   (0xEB,0x2F,0xB5),(0xFF,0x29,0x50),(0xFF,0x22,0x00),(0xD6,0x32,0x00),
   (0xC4,0x62,0x00),(0x35,0x80,0x00),(0x05,0x8F,0x00),(0x00,0x8A,0x55),
   (0x00,0x99,0xCC),(0x21,0x21,0x21),(0x09,0x09,0x09),(0x09,0x09,0x09),
   (0xFF,0xFF,0xFF),(0x0F,0xD7,0xFF),(0x69,0xA2,0xFF),(0xD4,0x80,0xFF),
   (0xFF,0x45,0xF3),(0xFF,0x61,0x8B),(0xFF,0x88,0x33),(0xFF,0x9C,0x12),
   (0xFA,0xBC,0x20),(0x9F,0xE3,0x0E),(0x2B,0xF0,0x35),(0x0C,0xF0,0xA4),
   (0x05,0xFB,0xFF),(0x5E,0x5E,0x5E),(0x0D,0x0D,0x0D),(0x0D,0x0D,0x0D),
   (0xFF,0xFF,0xFF),(0xA6,0xFC,0xFF),(0xB3,0xEC,0xFF),(0xDA,0xAB,0xEB),
   (0xFF,0xA8,0xF9),(0xFF,0xAB,0xB3),(0xFF,0xD2,0xB0),(0xFF,0xEF,0xA6),
   (0xFF,0xF7,0x9C),(0xD7,0xE8,0x95),(0xA6,0xED,0xAF),(0xA2,0xF2,0xDA),
   (0x99,0xFF,0xFC),(0xDD,0xDD,0xDD),(0x11,0x11,0x11),(0x11,0x11,0x11)]

/-- Model of `PPU::set_frame_pixel` (src/ppu.rs): bounds-guarded write of one RGB
triple into the packed framebuffer. -/
def setFramePixel (p : Ppu) (x y : Nat) (rgb : Nat × Nat × Nat) : Ppu :=
  if 256 ≤ x ∨ 240 ≤ y then p
  else
    let index := (y * 256 + x) * 3
    { p with frameBuffer := fun j =>
        if j = index then rgb.1
        else if j = index + 1 then rgb.2.1
        else if j = index + 2 then rgb.2.2
        else p.frameBuffer j }

/-- Model of `PPU::background_pixel_info` (src/ppu.rs): compute the RGB value and
2-bit colour index of the background pixel at `(x, y)`. -/
def backgroundPixelInfo (p : Ppu) (x y : Nat) : (Nat × Nat × Nat) × Nat :=
  let baseNametable := p.controlRegister &&& 0x03
  let baseX := if baseNametable &&& 0x01 ≠ 0 then 256 else 0
  let baseY := if baseNametable &&& 0x02 ≠ 0 then 240 else 0
  let worldX := (x + (p.scrollX + baseX)) % 65536
  let worldY := (y + (p.scrollY + baseY)) % 65536
  let nametableX := (worldX / 256) % 2
  let nametableY := (worldY / 240) % 2
  let nametableBase := 0x2000 + (nametableY * 2 + nametableX) * 0x0400
  let tileX := (worldX % 256) / 8
  let tileY := (worldY % 240) / 8
  let tileIndex := ppuRead p (nametableBase + tileY * 32 + tileX)
  let attributeAddr := nametableBase + 0x03C0 + (tileY / 4) * 8 + (tileX / 4)
  let attrByte := ppuRead p attributeAddr
  let quadrantX := (tileX % 4) / 2
  let quadrantY := (tileY % 4) / 2
  let quadrant := quadrantY * 2 + quadrantX
  let paletteSelect :=
    if quadrant = 0 then attrByte &&& 0x03
    else if quadrant = 1 then (attrByte >>> 2) &&& 0x03
    else if quadrant = 2 then (attrByte >>> 4) &&& 0x03
    else (attrByte >>> 6) &&& 0x03
  let patternTableBase := if p.controlRegister &&& 0x10 ≠ 0 then 0x1000 else 0x0000
  let fineY := worldY % 8
  let fineX := worldX % 8
  let tileAddr := patternTableBase + tileIndex * 16 + fineY
  let planeLow := ppuRead p tileAddr
  let planeHigh := ppuRead p (tileAddr + 8)
  let bit := 7 - fineX
  let colorLow := (planeLow >>> bit) &&& 0x01
  let colorHigh := (planeHigh >>> bit) &&& 0x01
  let color := (colorHigh <<< 1) ||| colorLow
  let paletteAddr :=
    if color = 0 then 0x3F00 else 0x3F00 + ((paletteSelect <<< 2) ||| color)
  let paletteValue := ppuRead p paletteAddr &&& 0x3F
  (systemPalette.getD paletteValue (0, 0, 0), color)

/-- Body of the innermost (per-column) loop of `PPU::render_sprites`
(src/ppu.rs): resolve one sprite pixel and write it subject to the
transparency, clipping and priority rules. -/
def renderSpriteCol (p : Ppu) (showLeftmostSprites showBackground : Bool)
    (planeLow planeHigh : Nat) (flipH : Bool) (behindBackground : Bool)
    (paletteIndex : Nat) (x y : Int) (row col : Nat) : Ppu :=
  let bit := if flipH then col else 7 - col
  let colorLow := (planeLow >>> bit) &&& 0x01
  let colorHigh := (planeHigh >>> bit) &&& 0x01
  let color := (colorHigh <<< 1) ||| colorLow
  if color = 0 then p
  else
    let paletteAddr := 0x3F10 + paletteIndex * 4 + color
    let paletteValue := ppuRead p paletteAddr &&& 0x3F
    let rgb := systemPalette.getD paletteValue (0, 0, 0)
    let pixelX := x + (col : Int)
    let pixelY := y + (row : Int)
    if pixelX < 0 ∨ pixelY < 0 then p
    else
      let px := pixelX.toNat
      let py := pixelY.toNat
      if 256 ≤ px ∨ 240 ≤ py then p
      else if px < 8 ∧ ! showLeftmostSprites then p
      else if behindBackground ∧ showBackground ∧
              p.backgroundIndexBuffer (py * 256 + px) ≠ 0 then p
      else setFramePixel p px py rgb

/-- Body of the per-row loop of `PPU::render_sprites` (src/ppu.rs):
select the pattern table and tile row, read the two bit-planes, and run
the eight column steps. -/
def renderSpriteRow (p : Ppu) (showLeftmostSprites showBackground : Bool)
    (spriteHeight : Nat) (tileIndex attributes : Nat) (x y : Int) (row : Nat) : Ppu :=
  let flipH := attributes &&& 0x40 ≠ 0
  let flipV := attributes &&& 0x80 ≠ 0
  let behindBackground := attributes &&& 0x20 ≠ 0
  let paletteIndex := attributes &&& 0x03
  let rowIndex := if flipV then spriteHeight - 1 - row else row
  let tns :=
    if spriteHeight = 16 then
      let table := if tileIndex &&& 0x01 = 0 then 0x0000 else 0x1000
      let tile := tileIndex &&& 0xFE
      if 8 ≤ rowIndex then (table, (tile + 1) % 256, rowIndex - 8)
      else (table, tile, rowIndex)
    else
      let table := if p.controlRegister &&& 0x08 ≠ 0 then 0x1000 else 0x0000
      (table, tileIndex, rowIndex)
  let tileAddr := tns.1 + tns.2.1 * 16 + tns.2.2
  let planeLow := ppuRead p tileAddr
  let planeHigh := ppuRead p (tileAddr + 8)
  (List.range 8).foldl
    (fun q col =>
      renderSpriteCol q showLeftmostSprites showBackground planeLow planeHigh
        flipH behindBackground paletteIndex x y row col) p

/-- Model of `PPU::render_sprites` (src/ppu.rs): render all 64 OAM sprites into
the framebuffer at end of frame. -/
def renderSprites (p : Ppu) : Ppu :=
  if p.maskRegister &&& 0x10 = 0 then p
  else
    let showLeftmostSprites := p.maskRegister &&& 0x04 ≠ 0
    let showBackground := p.maskRegister &&& 0x08 ≠ 0
    let spriteHeight := if p.controlRegister &&& 0x20 ≠ 0 then 16 else 8
    (List.range 64).foldl
      (fun q spriteIndex =>
        let base := spriteIndex * 4
        let y : Int := (q.oam base : Int) + 1
        let tileIndex := q.oam (base + 1)
        let attributes := q.oam (base + 2)
        let x : Int := (q.oam (base + 3) : Int)
        (List.range spriteHeight).foldl
          (fun r row =>
            renderSpriteRow r showLeftmostSprites showBackground spriteHeight
              tileIndex attributes x y row) q) p

/-- The visible-pixel block of `PPU::clock` (src/ppu.rs): on visible
scanlines and cycles 1–256, compute one background pixel and record its
colour index. -/
def ppuRenderPhase (p : Ppu) : Ppu :=
  if p.scanline < 240 ∧ 1 ≤ p.cycle ∧ p.cycle ≤ 256 then
    let x := p.cycle - 1
    let y := p.scanline
    let showBackground := p.maskRegister &&& 0x08 ≠ 0
    let showLeftmostBackground := p.maskRegister &&& 0x02 ≠ 0
    let ri :=
      if showBackground then
        if x < 8 ∧ ! showLeftmostBackground then
          let paletteValue := ppuRead p 0x3F00 &&& 0x3F
          (systemPalette.getD paletteValue (0, 0, 0), 0)
        else backgroundPixelInfo p x y
      else
        let paletteValue := ppuRead p 0x3F00 &&& 0x3F
        (systemPalette.getD paletteValue (0, 0, 0), 0)
    let p := { p with backgroundIndexBuffer := fun j =>
                 if j = y * 256 + x then ri.2 else p.backgroundIndexBuffer j }
    setFramePixel p x y ri.1
  else p

/-- The vertical-blank block of `PPU::clock` (src/ppu.rs): at scanline
241, cycle 1, set the vertical-blank status bit and raise NMI when
control bit 7 is set. -/
def ppuVblankPhase (p : Ppu) : Ppu :=
  if p.scanline = 241 ∧ p.cycle = 1 then
    let p := { p with statusRegister := p.statusRegister ||| 0x80 }
    if p.controlRegister &&& 0x80 ≠ 0 then { p with nmi := true } else p
  else p

/-- The pre-render block of `PPU::clock` (src/ppu.rs): at scanline 261,
cycle 1, clear vertical blank, sprite-zero hit and sprite overflow. -/
def ppuFlagClearPhase (p : Ppu) : Ppu :=
  if p.scanline = 261 ∧ p.cycle = 1 then
    { p with statusRegister := ((p.statusRegister &&& 0x7F) &&& 0xBF) &&& 0xDF }
  else p

/-- The counter-advance block of `PPU::clock` (src/ppu.rs): step the
cycle, wrap into the next scanline at 341, and at end of frame render
the sprites and set the frame-complete flag. -/
def ppuAdvancePhase (p : Ppu) : Ppu :=
  let p : Ppu := { p with cycle := p.cycle + 1 }
  if 341 ≤ p.cycle then
    let p : Ppu := { p with cycle := 0, scanline := p.scanline + 1 }
    if 261 < p.scanline then
      let p : Ppu := { p with scanline := 0 }
      { (renderSprites p) with frameComplete := true }
    else p
  else p

/-- Model of `PPU::clock` (src/ppu.rs): one PPU tick — the four sequential blocks
of the source in order. -/
def ppuClock (p : Ppu) : Ppu :=
  ppuAdvancePhase (ppuFlagClearPhase (ppuVblankPhase (ppuRenderPhase p)))

/-- The immutable cartridge image consumed by `Bus::new`
(src/cartridge.rs, `struct Cartridge`), with the byte vectors as total
functions plus the PRG length used by the mapper-0 mirror test. -/
structure CartImage where
  prg : Nat → Nat
  prgLen : Nat
  chr : Nat → Nat
  mirror : Mirroring
  chrIsRam : Bool

/-- Bus state (src/bus.rs, `struct Bus`).  `cpuVram` is the 2 KiB CPU
RAM; the two controller latches and shift registers are kept as separate
fields. -/
structure Bus where
  cpuVram : Nat → Nat
  prg : Nat → Nat
  prgLen : Nat
  ppu : Ppu
  controller0 : Nat
  controller1 : Nat
  controllerState0 : Nat
  controllerState1 : Nat
  controllerStrobe : Bool

/-- Model of `Bus::new` (src/bus.rs). -/
def busNew (cart : CartImage) : Bus where
  cpuVram := fun _ => 0
  prg := cart.prg
  prgLen := cart.prgLen
  ppu := ppuNew cart.chr cart.mirror cart.chrIsRam
  controller0 := 0
  controller1 := 0
  controllerState0 := 0
  controllerState1 := 0
  controllerStrobe := false

/-- Model of `Bus::read_prg_rom` (src/bus.rs): subtract 0x8000 and mirror the
single 16 KiB bank across the upper half when the PRG is 16 KiB. -/
def readPrgRom (b : Bus) (addr : Nat) : Nat :=
  let a := addr - 0x8000
  let a := if b.prgLen = 0x4000 ∧ 0x4000 ≤ a then a - 0x4000 else a
  b.prg a

/-- Model of `Bus::mem_read` (src/bus.rs): the CPU-visible read path.  Reads of
0x2002/0x2004/0x2007 and of the controller ports mutate state, so the new
bus is returned alongside the value.  The 0x2008–0x3FFF mirror
(`0x2000 + (addr & 7)`) is folded into a dispatch on `addr % 8`. -/
def memRead (b : Bus) (addr : Nat) : Nat × Bus :=
  if addr ≤ 0x1FFF then (b.cpuVram (addr &&& 0x07FF), b)
  else if addr ≤ 0x3FFF then
    let r := addr % 8
    if r = 2 then
      let s := readStatusRegister b.ppu
      (s.1, { b with ppu := s.2 })
    else if r = 4 then (b.ppu.oam b.ppu.oamAddr, b)
    else if r = 7 then
      let s := readData b.ppu
      (s.1, { b with ppu := s.2 })
    else (0, b)
  else if addr = 0x4014 then (0, b)
  else if addr = 0x4016 ∨ addr = 0x4017 then
    let index := addr &&& 0x0001
    let st := if index = 0 then b.controllerState0 else b.controllerState1
    let value := st &&& 0x01
    if b.controllerStrobe then (value, b)
    else if index = 0 then (value, { b with controllerState0 := st >>> 1 })
    else (value, { b with controllerState1 := st >>> 1 })
  else if 0x8000 ≤ addr ∧ addr ≤ 0xFFFF then (readPrgRom b addr, b)
  else (0, b)

/-- One iteration of the OAM-DMA loop in `Bus::mem_write`
(src/bus.rs, the 0x4014 arm): read one byte through the bus and push it
into OAM data. -/
def dmaStep (b : Bus) (addr : Nat) : Bus :=
  let r := memRead b addr
  { r.2 with ppu := writeToOamData r.2.ppu r.1 }

/-- The first `n` iterations of the OAM-DMA loop, reading from
`base + 0`, `base + 1`, …  (`n = 256` is the full transfer). -/
def dmaIterate (b : Bus) (base : Nat) (n : Nat) : Bus :=
  (List.range n).foldl (fun bb i => dmaStep bb (base + i)) b

/-- Dispatch of `Bus::mem_write` for the eight PPU registers
(src/bus.rs, arms 0x2000–0x2007). -/
def ppuRegWrite (p : Ppu) (r : Nat) (data : Nat) : Ppu :=
  if r = 0 then { p with controlRegister := data }
  else if r = 1 then { p with maskRegister := data }
  else if r = 3 then { p with oamAddr := data }
  else if r = 4 then writeToOamData p data
  else if r = 5 then writeToScrollRegister p data
  else if r = 6 then writeToAddressRegister p data
  else if r = 7 then writeData p data
  else p

/-- Model of `Bus::mem_write` (src/bus.rs): the CPU-visible write path, including
the 256-byte OAM DMA triggered by address 0x4014 and the controller
strobe at 0x4016.  PRG-ROM and unmapped writes are ignored. -/
def memWrite (b : Bus) (addr : Nat) (data : Nat) : Bus :=
  if addr ≤ 0x1FFF then
    { b with cpuVram := fun j => if j = (addr &&& 0x07FF) then data else b.cpuVram j }
  else if addr ≤ 0x3FFF then
    { b with ppu := ppuRegWrite b.ppu (addr % 8) data }
  else if addr = 0x4014 then
    dmaIterate b (data <<< 8) 256
  else if addr = 0x4016 then
    let strobe := data &&& 0x01 = 0x01
    if strobe then
      { b with controllerStrobe := strobe,
               controllerState0 := b.controller0,
               controllerState1 := b.controller1 }
    else { b with controllerStrobe := strobe }
  else b

/-- CPU state (src/cpu.rs, `struct CPU`), with the bus owned as in the
source. -/
structure Cpu where
  a : Nat
  x : Nat
  y : Nat
  sp : Nat
  pc : Nat
  status : Nat
  fetched : Nat
  addrAbs : Nat
  addrRel : Nat
  opcode : Nat
  cycles : Nat
  bus : Bus
  sysClock : Nat

/-- Status flag bit masks (src/cpu.rs, `StatusFlag`). -/
def maskC : Nat := 0x01
def maskZ : Nat := 0x02
def maskI : Nat := 0x04
def maskD : Nat := 0x08
def maskB : Nat := 0x10
def maskU : Nat := 0x20
def maskV : Nat := 0x40
def maskN : Nat := 0x80

/-- Model of `CPU::set_flag` (src/cpu.rs); the clear branch uses the 8-bit
complement of the mask, as the `u8` negation does. -/
def setFlag (mask : Nat) (value : Bool) (st : Nat) : Nat :=
  if value then st ||| mask else st &&& (0xFF ^^^ mask)

/-- Model of `CPU::get_flag` (src/cpu.rs). -/
def getFlag (mask : Nat) (st : Nat) : Nat :=
  if 0 < st &&& mask then 1 else 0

/-- Eight-bit wrapping subtraction (`u8::wrapping_sub`). -/
def wsub8 (v w : Nat) : Nat := (v + 256 - w % 256) % 256

/-- Model of `CPU::read` (src/cpu.rs): a bus read, threading the mutated bus. -/
def cpuRead (s : Cpu) (addr : Nat) : Nat × Cpu :=
  let r := memRead s.bus addr
  (r.1, { s with bus := r.2 })

/-- Model of `CPU::write` (src/cpu.rs). -/
def cpuWrite (s : Cpu) (addr data : Nat) : Cpu :=
  { s with bus := memWrite s.bus addr data }

/-- Model of `CPU::new` (src/cpu.rs). -/
def cpuNew (cart : CartImage) : Cpu where
  a := 0
  x := 0
  y := 0
  sp := 0
  pc := 0
  status := 0
  fetched := 0
  addrAbs := 0
  addrRel := 0
  opcode := 0
  cycles := 0
  bus := busNew cart
  sysClock := 0

/-- Model of `CPU::fetch` (src/cpu.rs): refresh `fetched` from `addr_abs` for
every addressing mode except IMP. -/
def cpuFetch (lookup : Lookup) (s : Cpu) : Cpu :=
  if (lookup s.opcode).addrmode ≠ AddressingMode.IMP then
    let r := cpuRead s s.addrAbs
    { r.2 with fetched := r.1 }
  else s

/-- Model of `CPU::imp` (src/cpu.rs). -/
def amImp (s : Cpu) : Cpu × Nat := ({ s with fetched := s.a }, 0)

/-- Model of `CPU::imm` (src/cpu.rs). -/
def amImm (s : Cpu) : Cpu × Nat :=
  ({ s with addrAbs := s.pc, pc := (s.pc + 1) % 65536 }, 0)

/-- Model of `CPU::zp0` (src/cpu.rs). -/
def amZp0 (s : Cpu) : Cpu × Nat :=
  let r := cpuRead s s.pc
  ({ r.2 with addrAbs := r.1 &&& 0x00FF, pc := (r.2.pc + 1) % 65536 }, 0)

/-- Model of `CPU::zpx` (src/cpu.rs): zero-page base plus X with 8-bit wrap. -/
def amZpx (s : Cpu) : Cpu × Nat :=
  let r := cpuRead s s.pc
  ({ r.2 with addrAbs := ((r.1 + r.2.x) % 256) &&& 0x00FF,
              pc := (r.2.pc + 1) % 65536 }, 0)

/-- Model of `CPU::zpy` (src/cpu.rs). -/
def amZpy (s : Cpu) : Cpu × Nat :=
  let r := cpuRead s s.pc
  ({ r.2 with addrAbs := ((r.1 + r.2.y) % 256) &&& 0x00FF,
              pc := (r.2.pc + 1) % 65536 }, 0)

/-- Model of `CPU::abs` (src/cpu.rs): two-byte little-endian fetch. -/
def amAbs (s : Cpu) : Cpu × Nat :=
  let r1 := cpuRead s s.pc
  let s1 := { r1.2 with pc := (r1.2.pc + 1) % 65536 }
  let r2 := cpuRead s1 s1.pc
  let s2 := { r2.2 with pc := (r2.2.pc + 1) % 65536 }
  ({ s2 with addrAbs := (r2.1 <<< 8) ||| r1.1 }, 0)

/-- Model of `CPU::abx` (src/cpu.rs): absolute plus X; the extra cycle is
signalled when the addition changes the high byte. -/
def amAbx (s : Cpu) : Cpu × Nat :=
  let r1 := cpuRead s s.pc
  let s1 := { r1.2 with pc := (r1.2.pc + 1) % 65536 }
  let r2 := cpuRead s1 s1.pc
  let s2 := { r2.2 with pc := (r2.2.pc + 1) % 65536 }
  let addr := (((r2.1 <<< 8) ||| r1.1) + s2.x) % 65536
  ({ s2 with addrAbs := addr },
   if addr &&& 0xFF00 ≠ r2.1 <<< 8 then 1 else 0)

/-- Model of `CPU::aby` (src/cpu.rs). -/
def amAby (s : Cpu) : Cpu × Nat :=
  let r1 := cpuRead s s.pc
  let s1 := { r1.2 with pc := (r1.2.pc + 1) % 65536 }
  let r2 := cpuRead s1 s1.pc
  let s2 := { r2.2 with pc := (r2.2.pc + 1) % 65536 }
  let addr := (((r2.1 <<< 8) ||| r1.1) + s2.y) % 65536
  ({ s2 with addrAbs := addr },
   if addr &&& 0xFF00 ≠ r2.1 <<< 8 then 1 else 0)

/-- Model of `CPU::ind` (src/cpu.rs): two-byte pointer with the 6502 page-wrap
bug — a pointer whose low byte is 0xFF reads its high byte from the
start of the same page.  The high-byte read happens first, as in the
source expression. -/
def amInd (s : Cpu) : Cpu × Nat :=
  let r1 := cpuRead s s.pc
  let s1 := { r1.2 with pc := (r1.2.pc + 1) % 65536 }
  let r2 := cpuRead s1 s1.pc
  let s2 := { r2.2 with pc := (r2.2.pc + 1) % 65536 }
  let ptr := (r2.1 <<< 8) ||| r1.1
  if r1.1 = 0x00FF then
    let rh := cpuRead s2 (ptr &&& 0xFF00)
    let rl := cpuRead rh.2 ptr
    ({ rl.2 with addrAbs := (rh.1 <<< 8) ||| rl.1 }, 0)
  else
    let rh := cpuRead s2 (ptr + 1)
    let rl := cpuRead rh.2 ptr
    ({ rl.2 with addrAbs := (rh.1 <<< 8) ||| rl.1 }, 0)

/-- Model of `CPU::izx` (src/cpu.rs). -/
def amIzx (s : Cpu) : Cpu × Nat :=
  let r := cpuRead s s.pc
  let s1 := { r.2 with pc := (r.2.pc + 1) % 65536 }
  let rl := cpuRead s1 ((r.1 + s1.x) &&& 0x00FF)
  let rh := cpuRead rl.2 ((r.1 + rl.2.x + 1) &&& 0x00FF)
  ({ rh.2 with addrAbs := (rh.1 <<< 8) ||| rl.1 }, 0)

/-- Model of `CPU::izy` (src/cpu.rs). -/
def amIzy (s : Cpu) : Cpu × Nat :=
  let r := cpuRead s s.pc
  let s1 := { r.2 with pc := (r.2.pc + 1) % 65536 }
  let rl := cpuRead s1 (r.1 &&& 0x00FF)
  let rh := cpuRead rl.2 ((r.1 + 1) &&& 0x00FF)
  let addr := (((rh.1 <<< 8) ||| rl.1) + rh.2.y) % 65536
  ({ rh.2 with addrAbs := addr },
   if addr &&& 0xFF00 ≠ rh.1 <<< 8 then 1 else 0)

/-- Model of `CPU::rel` (src/cpu.rs): one relative byte, sign-extended by filling
the high byte with 0xFF when bit 7 is set. -/
def amRel (s : Cpu) : Cpu × Nat :=
  let r := cpuRead s s.pc
  let s1 := { r.2 with addrRel := r.1, pc := (r.2.pc + 1) % 65536 }
  if r.1 &&& 0x80 ≠ 0 then ({ s1 with addrRel := r.1 ||| 0xFF00 }, 0)
  else (s1, 0)

/-- Dispatch of `CPU::clock` on the addressing mode (src/cpu.rs). -/
def addrDispatch (mode : AddressingMode) (s : Cpu) : Cpu × Nat :=
  match mode with
  | .IMP => amImp s
  | .IMM => amImm s
  | .ZP0 => amZp0 s
  | .ZPX => amZpx s
  | .ZPY => amZpy s
  | .REL => amRel s
  | .ABS => amAbs s
  | .ABX => amAbx s
  | .ABY => amAby s
  | .IND => amInd s
  | .IZX => amIzx s
  | .IZY => amIzy s

/-- Common body of the eight taken branches (src/cpu.rs, `bcs` etc.):
+1 cycle, +1 more on page cross, then jump. -/
def branchTaken (s : Cpu) : Cpu :=
  let s := { s with cycles := (s.cycles + 1) % 256 }
  let s := { s with addrAbs := (s.pc + s.addrRel) % 65536 }
  let s :=
    if s.addrAbs &&& 0xFF00 ≠ s.pc &&& 0xFF00 then
      { s with cycles := (s.cycles + 1) % 256 }
    else s
  { s with pc := s.addrAbs }

/-- Model of `CPU::adc` (src/cpu.rs).  Note the carry condition in the source is
`temp > 255`. -/
def opAdc (lookup : Lookup) (s : Cpu) : Cpu × Nat :=
  let s := cpuFetch lookup s
  let temp := s.a + s.fetched + getFlag maskC s.status
  let st := setFlag maskC (255 < temp) s.status
  let st := setFlag maskZ (temp &&& 0x00FF = 0) st
  let st := setFlag maskN (temp &&& 0x80 ≠ 0) st
  let st := setFlag maskV
    ((((s.a ^^^ s.fetched) ^^^ 0xFF) &&& (s.a ^^^ (temp % 256))) &&& 0x80 ≠ 0) st
  ({ s with a := temp % 256, status := st }, 1)

/-- Model of `CPU::sbc` (src/cpu.rs). -/
def opSbc (lookup : Lookup) (s : Cpu) : Cpu × Nat :=
  let s := cpuFetch lookup s
  let value := s.fetched ^^^ 0x00FF
  let temp := s.a + value + getFlag maskC s.status
  let st := setFlag maskC (temp &&& 0xFF00 ≠ 0) s.status
  let st := setFlag maskZ (temp &&& 0x00FF = 0) st
  let st := setFlag maskV (((temp ^^^ s.a) &&& (temp ^^^ value)) &&& 0x0080 ≠ 0) st
  let st := setFlag maskN (temp &&& 0x0080 ≠ 0) st
  ({ s with a := temp % 256, status := st }, 1)

/-- Model of `CPU::and` (src/cpu.rs). -/
def opAnd (lookup : Lookup) (s : Cpu) : Cpu × Nat :=
  let s := cpuFetch lookup s
  let a := s.a &&& s.fetched
  let st := setFlag maskZ (a = 0) s.status
  let st := setFlag maskN (a &&& 0x80 ≠ 0) st
  ({ s with a := a, status := st }, 1)

/-- Model of `CPU::eor` (src/cpu.rs). -/
def opEor (lookup : Lookup) (s : Cpu) : Cpu × Nat :=
  let s := cpuFetch lookup s
  let a := s.a ^^^ s.fetched
  let st := setFlag maskZ (a = 0) s.status
  let st := setFlag maskN (a &&& 0x80 ≠ 0) st
  ({ s with a := a, status := st }, 1)

/-- Model of `CPU::ora` (src/cpu.rs). -/
def opOra (lookup : Lookup) (s : Cpu) : Cpu × Nat :=
  let s := cpuFetch lookup s
  let a := s.a ||| s.fetched
  let st := setFlag maskZ (a = 0) s.status
  let st := setFlag maskN (a &&& 0x80 ≠ 0) st
  ({ s with a := a, status := st }, 1)

/-- Model of `CPU::asl` (src/cpu.rs). -/
def opAsl (lookup : Lookup) (s : Cpu) : Cpu × Nat :=
  let s := cpuFetch lookup s
  let temp := s.fetched <<< 1
  let st := setFlag maskC (0 < temp &&& 0xFF00) s.status
  let st := setFlag maskZ (temp &&& 0x00FF = 0) st
  let st := setFlag maskN (temp &&& 0x0080 ≠ 0) st
  if (lookup s.opcode).addrmode = AddressingMode.IMP then
    ({ s with a := temp % 256, status := st }, 0)
  else (cpuWrite { s with status := st } s.addrAbs (temp % 256), 0)

/-- Model of `CPU::lsr` (src/cpu.rs).  Note the source computes the carry from
bit 0 of the already-shifted result. -/
def opLsr (lookup : Lookup) (s : Cpu) : Cpu × Nat :=
  let s := cpuFetch lookup s
  let temp := s.fetched >>> 1
  let st := setFlag maskC (temp &&& 0x0001 ≠ 0) s.status
  let st := setFlag maskZ (temp &&& 0x00FF = 0) st
  let st := setFlag maskN (temp &&& 0x0080 ≠ 0) st
  if (lookup s.opcode).addrmode = AddressingMode.IMP then
    ({ s with a := temp % 256, status := st }, 0)
  else (cpuWrite { s with status := st } s.addrAbs (temp % 256), 0)

/-- Model of `CPU::rol` (src/cpu.rs). -/
def opRol (lookup : Lookup) (s : Cpu) : Cpu × Nat :=
  let s := cpuFetch lookup s
  let temp := (s.fetched <<< 1) ||| getFlag maskC s.status
  let st := setFlag maskC (temp &&& 0xFF00 ≠ 0) s.status
  let st := setFlag maskZ (temp &&& 0x00FF = 0) st
  let st := setFlag maskN (temp &&& 0x0080 ≠ 0) st
  if (lookup s.opcode).addrmode = AddressingMode.IMP then
    ({ s with a := temp % 256, status := st }, 0)
  else (cpuWrite { s with status := st } s.addrAbs (temp % 256), 0)

/-- Model of `CPU::ror` (src/cpu.rs); here the carry does come from bit 0 of the
original operand. -/
def opRor (lookup : Lookup) (s : Cpu) : Cpu × Nat :=
  let s := cpuFetch lookup s
  let temp := (getFlag maskC s.status <<< 7) ||| (s.fetched >>> 1)
  let st := setFlag maskC (s.fetched &&& 0x01 ≠ 0) s.status
  let st := setFlag maskZ (temp &&& 0x00FF = 0) st
  let st := setFlag maskN (temp &&& 0x0080 ≠ 0) st
  if (lookup s.opcode).addrmode = AddressingMode.IMP then
    ({ s with a := temp % 256, status := st }, 0)
  else (cpuWrite { s with status := st } s.addrAbs (temp % 256), 0)

/-- Model of `CPU::cmp` (src/cpu.rs). -/
def opCmp (lookup : Lookup) (s : Cpu) : Cpu × Nat :=
  let s := cpuFetch lookup s
  let temp := wsub8 s.a s.fetched
  let st := setFlag maskC (s.fetched ≤ s.a) s.status
  let st := setFlag maskZ (temp &&& 0x00FF = 0) st
  let st := setFlag maskN (temp &&& 0x0080 ≠ 0) st
  ({ s with status := st }, 1)

/-- Model of `CPU::cpx` (src/cpu.rs). -/
def opCpx (lookup : Lookup) (s : Cpu) : Cpu × Nat :=
  let s := cpuFetch lookup s
  let temp := wsub8 s.x s.fetched
  let st := setFlag maskC (s.fetched ≤ s.x) s.status
  let st := setFlag maskZ (temp &&& 0x00FF = 0) st
  let st := setFlag maskN (temp &&& 0x0080 ≠ 0) st
  ({ s with status := st }, 0)

/-- Model of `CPU::cpy` (src/cpu.rs). -/
def opCpy (lookup : Lookup) (s : Cpu) : Cpu × Nat :=
  let s := cpuFetch lookup s
  let temp := wsub8 s.y s.fetched
  let st := setFlag maskC (s.fetched ≤ s.y) s.status
  let st := setFlag maskZ (temp &&& 0x00FF = 0) st
  let st := setFlag maskN (temp &&& 0x0080 ≠ 0) st
  ({ s with status := st }, 0)

/-- Model of `CPU::inc` (src/cpu.rs). -/
def opInc (lookup : Lookup) (s : Cpu) : Cpu × Nat :=
  let s := cpuFetch lookup s
  let temp := s.fetched + 1
  let s := cpuWrite s s.addrAbs (temp % 256)
  let st := setFlag maskZ (temp &&& 0x00FF = 0) s.status
  let st := setFlag maskN (temp &&& 0x0080 ≠ 0) st
  ({ s with status := st }, 0)

/-- Model of `CPU::dec` (src/cpu.rs). -/
def opDec (lookup : Lookup) (s : Cpu) : Cpu × Nat :=
  let s := cpuFetch lookup s
  let temp := wsub8 s.fetched 1
  let s := cpuWrite s s.addrAbs (temp % 256)
  let st := setFlag maskZ (temp &&& 0x00FF = 0) s.status
  let st := setFlag maskN (temp &&& 0x0080 ≠ 0) st
  ({ s with status := st }, 0)

/-- Model of `CPU::inx` (src/cpu.rs). -/
def opInx (s : Cpu) : Cpu × Nat :=
  let v := (s.x + 1) % 256
  let st := setFlag maskZ (v = 0) s.status
  let st := setFlag maskN (v &&& 0x80 ≠ 0) st
  ({ s with x := v, status := st }, 0)

/-- Model of `CPU::iny` (src/cpu.rs). -/
def opIny (s : Cpu) : Cpu × Nat :=
  let v := (s.y + 1) % 256
  let st := setFlag maskZ (v = 0) s.status
  let st := setFlag maskN (v &&& 0x80 ≠ 0) st
  ({ s with y := v, status := st }, 0)

/-- Model of `CPU::dex` (src/cpu.rs). -/
def opDex (s : Cpu) : Cpu × Nat :=
  let v := wsub8 s.x 1
  let st := setFlag maskZ (v = 0) s.status
  let st := setFlag maskN (v &&& 0x80 ≠ 0) st
  ({ s with x := v, status := st }, 0)

/-- Model of `CPU::dey` (src/cpu.rs). -/
def opDey (s : Cpu) : Cpu × Nat :=
  let v := wsub8 s.y 1
  let st := setFlag maskZ (v = 0) s.status
  let st := setFlag maskN (v &&& 0x80 ≠ 0) st
  ({ s with y := v, status := st }, 0)

/-- Model of `CPU::bit` (src/cpu.rs). -/
def opBit (lookup : Lookup) (s : Cpu) : Cpu × Nat :=
  let s := cpuFetch lookup s
  let temp := s.a &&& s.fetched
  let st := setFlag maskZ (temp &&& 0x00FF = 0) s.status
  let st := setFlag maskN (s.fetched &&& 0x80 ≠ 0) st
  let st := setFlag maskV (s.fetched &&& 0x40 ≠ 0) st
  ({ s with status := st }, 0)

/-- Model of `CPU::bcs`/`bcc`/`beq`/`bne`/`bmi`/`bpl`/`bvs`/`bvc` (src/cpu.rs). -/
def opBcs (s : Cpu) : Cpu × Nat :=
  (if getFlag maskC s.status = 1 then branchTaken s else s, 0)

/-- Model of `CPU::bcc` (src/cpu.rs). -/
def opBcc (s : Cpu) : Cpu × Nat :=
  (if getFlag maskC s.status = 0 then branchTaken s else s, 0)

/-- Model of `CPU::beq` (src/cpu.rs). -/
def opBeq (s : Cpu) : Cpu × Nat :=
  (if getFlag maskZ s.status = 1 then branchTaken s else s, 0)

/-- Model of `CPU::bne` (src/cpu.rs). -/
def opBne (s : Cpu) : Cpu × Nat :=
  (if getFlag maskZ s.status = 0 then branchTaken s else s, 0)

/-- Model of `CPU::bmi` (src/cpu.rs). -/
def opBmi (s : Cpu) : Cpu × Nat :=
  (if getFlag maskN s.status = 1 then branchTaken s else s, 0)

/-- Model of `CPU::bpl` (src/cpu.rs). -/
def opBpl (s : Cpu) : Cpu × Nat :=
  (if getFlag maskN s.status = 0 then branchTaken s else s, 0)

/-- Model of `CPU::bvs` (src/cpu.rs). -/
def opBvs (s : Cpu) : Cpu × Nat :=
  (if getFlag maskV s.status = 1 then branchTaken s else s, 0)

/-- Model of `CPU::bvc` (src/cpu.rs). -/
def opBvc (s : Cpu) : Cpu × Nat :=
  (if getFlag maskV s.status = 0 then branchTaken s else s, 0)

/-- Model of `CPU::jmp` (src/cpu.rs). -/
def opJmp (s : Cpu) : Cpu × Nat := ({ s with pc := s.addrAbs }, 0)

/-- Model of `CPU::jsr` (src/cpu.rs): push PC−1 high then low, jump. -/
def opJsr (s : Cpu) : Cpu × Nat :=
  let s := { s with pc := (s.pc + 65535) % 65536 }
  let s := cpuWrite s (0x0100 + s.sp) ((s.pc >>> 8) % 256)
  let s := { s with sp := wsub8 s.sp 1 }
  let s := cpuWrite s (0x0100 + s.sp) (s.pc % 256)
  let s := { s with sp := wsub8 s.sp 1 }
  ({ s with pc := s.addrAbs }, 0)

/-- Model of `CPU::rts` (src/cpu.rs). -/
def opRts (s : Cpu) : Cpu × Nat :=
  let s := { s with sp := (s.sp + 1) % 256 }
  let rl := cpuRead s (0x0100 + s.sp)
  let s := { rl.2 with sp := (rl.2.sp + 1) % 256 }
  let rh := cpuRead s (0x0100 + s.sp)
  ({ rh.2 with pc := (((rh.1 <<< 8) ||| rl.1) + 1) % 65536 }, 0)

/-- Model of `CPU::lda` (src/cpu.rs). -/
def opLda (lookup : Lookup) (s : Cpu) : Cpu × Nat :=
  let s := cpuFetch lookup s
  let st := setFlag maskZ (s.fetched = 0) s.status
  let st := setFlag maskN (s.fetched &&& 0x80 ≠ 0) st
  ({ s with a := s.fetched, status := st }, 1)

/-- Model of `CPU::ldx` (src/cpu.rs). -/
def opLdx (lookup : Lookup) (s : Cpu) : Cpu × Nat :=
  let s := cpuFetch lookup s
  let st := setFlag maskZ (s.fetched = 0) s.status
  let st := setFlag maskN (s.fetched &&& 0x80 ≠ 0) st
  ({ s with x := s.fetched, status := st }, 1)

/-- Model of `CPU::ldy` (src/cpu.rs). -/
def opLdy (lookup : Lookup) (s : Cpu) : Cpu × Nat :=
  let s := cpuFetch lookup s
  let st := setFlag maskZ (s.fetched = 0) s.status
  let st := setFlag maskN (s.fetched &&& 0x80 ≠ 0) st
  ({ s with y := s.fetched, status := st }, 1)

/-- Model of `CPU::sta`/`stx`/`sty` (src/cpu.rs). -/
def opSta (s : Cpu) : Cpu × Nat := (cpuWrite s s.addrAbs s.a, 0)

/-- Model of `CPU::stx` (src/cpu.rs). -/
def opStx (s : Cpu) : Cpu × Nat := (cpuWrite s s.addrAbs s.x, 0)

/-- Model of `CPU::sty` (src/cpu.rs). -/
def opSty (s : Cpu) : Cpu × Nat := (cpuWrite s s.addrAbs s.y, 0)

/-- Model of `CPU::tax` (src/cpu.rs). -/
def opTax (s : Cpu) : Cpu × Nat :=
  let st := setFlag maskZ (s.a = 0) s.status
  let st := setFlag maskN (s.a &&& 0x80 ≠ 0) st
  ({ s with x := s.a, status := st }, 0)

/-- Model of `CPU::tay` (src/cpu.rs). -/
def opTay (s : Cpu) : Cpu × Nat :=
  let st := setFlag maskZ (s.a = 0) s.status
  let st := setFlag maskN (s.a &&& 0x80 ≠ 0) st
  ({ s with y := s.a, status := st }, 0)

/-- Model of `CPU::tsx` (src/cpu.rs). -/
def opTsx (s : Cpu) : Cpu × Nat :=
  let st := setFlag maskZ (s.sp = 0) s.status
  let st := setFlag maskN (s.sp &&& 0x80 ≠ 0) st
  ({ s with x := s.sp, status := st }, 0)

/-- Model of `CPU::txa` (src/cpu.rs). -/
def opTxa (s : Cpu) : Cpu × Nat :=
  let st := setFlag maskZ (s.x = 0) s.status
  let st := setFlag maskN (s.x &&& 0x80 ≠ 0) st
  ({ s with a := s.x, status := st }, 0)

/-- Model of `CPU::txs` (src/cpu.rs): no flags. -/
def opTxs (s : Cpu) : Cpu × Nat := ({ s with sp := s.x }, 0)

/-- Model of `CPU::tya` (src/cpu.rs). -/
def opTya (s : Cpu) : Cpu × Nat :=
  let st := setFlag maskZ (s.y = 0) s.status
  let st := setFlag maskN (s.y &&& 0x80 ≠ 0) st
  ({ s with a := s.y, status := st }, 0)

/-- Model of `CPU::clc`/`cld`/`cli`/`clv`/`sec`/`sed`/`sei` (src/cpu.rs). -/
def opClc (s : Cpu) : Cpu × Nat := ({ s with status := setFlag maskC false s.status }, 0)

/-- Model of `CPU::cld` (src/cpu.rs). -/
def opCld (s : Cpu) : Cpu × Nat := ({ s with status := setFlag maskD false s.status }, 0)

/-- Model of `CPU::cli` (src/cpu.rs). -/
def opCli (s : Cpu) : Cpu × Nat := ({ s with status := setFlag maskI false s.status }, 0)

/-- Model of `CPU::clv` (src/cpu.rs). -/
def opClv (s : Cpu) : Cpu × Nat := ({ s with status := setFlag maskV false s.status }, 0)

/-- Model of `CPU::sec` (src/cpu.rs). -/
def opSec (s : Cpu) : Cpu × Nat := ({ s with status := setFlag maskC true s.status }, 0)

/-- Model of `CPU::sed` (src/cpu.rs). -/
def opSed (s : Cpu) : Cpu × Nat := ({ s with status := setFlag maskD true s.status }, 0)

/-- Model of `CPU::sei` (src/cpu.rs). -/
def opSei (s : Cpu) : Cpu × Nat := ({ s with status := setFlag maskI true s.status }, 0)

/-- Model of `CPU::pha` (src/cpu.rs). -/
def opPha (s : Cpu) : Cpu × Nat :=
  let s := cpuWrite s (0x0100 + s.sp) s.a
  ({ s with sp := wsub8 s.sp 1 }, 0)

/-- Model of `CPU::php` (src/cpu.rs): push P with B and U set, then clear B and U. -/
def opPhp (s : Cpu) : Cpu × Nat :=
  let s := cpuWrite s (0x0100 + s.sp) ((s.status ||| maskB) ||| maskU)
  let st := setFlag maskB false s.status
  let st := setFlag maskU false st
  ({ s with status := st, sp := wsub8 s.sp 1 }, 0)

/-- Model of `CPU::pla` (src/cpu.rs). -/
def opPla (s : Cpu) : Cpu × Nat :=
  let s := { s with sp := (s.sp + 1) % 256 }
  let r := cpuRead s (0x0100 + s.sp)
  let st := setFlag maskZ (r.1 = 0) r.2.status
  let st := setFlag maskN (r.1 &&& 0x80 ≠ 0) st
  ({ r.2 with a := r.1, status := st }, 0)

/-- Model of `CPU::plp` (src/cpu.rs): pop P, then force U to 1. -/
def opPlp (s : Cpu) : Cpu × Nat :=
  let s := { s with sp := (s.sp + 1) % 256 }
  let r := cpuRead s (0x0100 + s.sp)
  ({ r.2 with status := setFlag maskU true r.1 }, 0)

/-- Model of `CPU::rti` (src/cpu.rs): pop P (clearing B and U), pop PC. -/
def opRti (s : Cpu) : Cpu × Nat :=
  let s := { s with sp := (s.sp + 1) % 256 }
  let r := cpuRead s (0x0100 + s.sp)
  let st := (r.1 &&& (0xFF ^^^ maskB)) &&& (0xFF ^^^ maskU)
  let s := { r.2 with status := st, sp := (r.2.sp + 1) % 256 }
  let rl := cpuRead s (0x0100 + s.sp)
  let s := { rl.2 with sp := (rl.2.sp + 1) % 256 }
  let rh := cpuRead s (0x0100 + s.sp)
  ({ rh.2 with pc := (rh.1 <<< 8) ||| rl.1 }, 0)

/-- The stack-push idiom the source repeats verbatim
(`self.write(0x0100 + sp, v); sp = sp.wrapping_sub(1)` in src/cpu.rs). -/
def push (s : Cpu) (v : Nat) : Cpu :=
  let s := cpuWrite s (0x0100 + s.sp) v
  { s with sp := wsub8 s.sp 1 }

/-- Model of `CPU::brk` (src/cpu.rs): PC+1; I is set *before* the pushes; push PC
high then low; push P with B set (and B cleared again afterwards); load
PC from the vector at 0xFFFE/0xFFFF. -/
def opBrk (s : Cpu) : Cpu × Nat :=
  let s := { s with pc := (s.pc + 1) % 65536 }
  let s := { s with status := setFlag maskI true s.status }
  let s := push s ((s.pc >>> 8) &&& 0x00FF)
  let s := push s (s.pc &&& 0x00FF)
  let s := { s with status := setFlag maskB true s.status }
  let s := push s s.status
  let s := { s with status := setFlag maskB false s.status }
  let s := { s with addrAbs := 0xFFFE }
  let rl := cpuRead s s.addrAbs
  let rh := cpuRead rl.2 (rl.2.addrAbs + 1)
  ({ rh.2 with pc := (rh.1 <<< 8) ||| rl.1 }, 0)

/-- Model of `CPU::nop` (src/cpu.rs): the unofficial absolute-X NOPs advertise a
potential extra cycle. -/
def opNop (s : Cpu) : Cpu × Nat :=
  (s, if s.opcode = 0x1C ∨ s.opcode = 0x3C ∨ s.opcode = 0x5C ∨
         s.opcode = 0x7C ∨ s.opcode = 0xDC ∨ s.opcode = 0xFC then 1 else 0)

/-- Model of `CPU::xxx` (src/cpu.rs): undocumented opcodes do nothing. -/
def opXxx (s : Cpu) : Cpu × Nat := (s, 0)

/-- Model of `CPU::nmi` (src/cpu.rs): push PC and P (B cleared, U and I set),
load PC from 0xFFFA/0xFFFB, charge 8 cycles. -/
def cpuNmiSeq (s : Cpu) : Cpu :=
  let s := push s ((s.pc >>> 8) &&& 0x00FF)
  let s := push s (s.pc &&& 0x00FF)
  let s := { s with status := setFlag maskB false s.status }
  let s := { s with status := setFlag maskU true s.status }
  let s := { s with status := setFlag maskI true s.status }
  let s := push s s.status
  let s := { s with addrAbs := 0xFFFA }
  let rl := cpuRead s s.addrAbs
  let rh := cpuRead rl.2 (rl.2.addrAbs + 1)
  { rh.2 with pc := (rh.1 <<< 8) ||| rl.1, cycles := 8 }

/-- Dispatch of `CPU::clock` on the operation tag (src/cpu.rs). -/
def opDispatch (lookup : Lookup) (k : OpKind) (s : Cpu) : Cpu × Nat :=
  match k with
  | .ADC => opAdc lookup s
  | .AND => opAnd lookup s
  | .ASL => opAsl lookup s
  | .BCC => opBcc s
  | .BCS => opBcs s
  | .BEQ => opBeq s
  | .BIT => opBit lookup s
  | .BMI => opBmi s
  | .BNE => opBne s
  | .BPL => opBpl s
  | .BRK => opBrk s
  | .BVC => opBvc s
  | .BVS => opBvs s
  | .CLC => opClc s
  | .CLD => opCld s
  | .CLI => opCli s
  | .CLV => opClv s
  | .CMP => opCmp lookup s
  | .CPX => opCpx lookup s
  | .CPY => opCpy lookup s
  | .DEC => opDec lookup s
  | .DEX => opDex s
  | .DEY => opDey s
  | .EOR => opEor lookup s
  | .INC => opInc lookup s
  | .INX => opInx s
  | .INY => opIny s
  | .JMP => opJmp s
  | .JSR => opJsr s
  | .LDA => opLda lookup s
  | .LDX => opLdx lookup s
  | .LDY => opLdy lookup s
  | .LSR => opLsr lookup s
  | .NOP => opNop s
  | .ORA => opOra lookup s
  | .PHA => opPha s
  | .PHP => opPhp s
  | .PLA => opPla s
  | .PLP => opPlp s
  | .ROL => opRol lookup s
  | .ROR => opRor lookup s
  | .RTI => opRti s
  | .RTS => opRts s
  | .SBC => opSbc lookup s
  | .SEC => opSec s
  | .SED => opSed s
  | .SEI => opSei s
  | .STA => opSta s
  | .STX => opStx s
  | .STY => opSty s
  | .TAX => opTax s
  | .TAY => opTay s
  | .TSX => opTsx s
  | .TXA => opTxa s
  | .TXS => opTxs s
  | .TYA => opTya s
  | .XXX => opXxx s

/-- The fetch/decode/execute block of `CPU::clock` (src/cpu.rs, the body
of `if self.cycles == 0`): read the opcode, load the base cycle count
from the dispatch table, run the addressing-mode resolver and the
operation, add the AND of the two penalties, and set the U flag. -/
def fetchAndExecute (lookup : Lookup) (s : Cpu) : Cpu :=
  let r := cpuRead s s.pc
  let s := { r.2 with opcode := r.1, pc := (r.2.pc + 1) % 65536 }
  let instr := lookup s.opcode
  let s := { s with cycles := instr.cycles }
  let ra := addrDispatch instr.addrmode s
  let ro := opDispatch lookup instr.operate ra.1
  let s := { ro.1 with cycles := (ro.1.cycles + (ra.2 &&& ro.2)) % 256 }
  { s with status := setFlag maskU true s.status }

/-- The CPU-cycle portion of `CPU::clock` (src/cpu.rs): every third
system tick, fetch/decode/execute when the cycle counter is zero, then
decrement it (8-bit wrapping, as the `u8` subtraction does). -/
def cpuCycPhase (lookup : Lookup) (s : Cpu) : Cpu :=
  if s.sysClock % 3 = 0 then
    let t := if s.cycles = 0 then fetchAndExecute lookup s else s
    { t with cycles := (t.cycles + 255) % 256 }
  else s

/-- Model of `CPU::clock` (src/cpu.rs): one system tick — one PPU tick, the CPU
cycle phase, then service of a pending PPU NMI, clearing the line. -/
def cpuClock (lookup : Lookup) (s : Cpu) : Cpu :=
  let s : Cpu := { s with bus := { s.bus with ppu := ppuClock s.bus.ppu } }
  let s : Cpu := cpuCycPhase lookup s
  let s : Cpu :=
    if s.bus.ppu.nmi then
      cpuNmiSeq { s with bus := { s.bus with ppu := { s.bus.ppu with nmi := false } } }
    else s
  { s with sysClock := (s.sysClock + 1) % 4294967296 }

/-- The cartridge produced by a successful load (src/cartridge.rs,
`struct Cartridge`), with the byte vectors as lists, as in the Rust
`Vec<u8>`. -/
structure CartridgeData where
  prgRom : List Nat
  chrRom : List Nat
  chrIsRam : Bool
  mirror : Mirroring
  mapper : Nat
deriving DecidableEq

/-- Outcome of `Cartridge::new` (src/cartridge.rs).  `panic` records an
`unwrap()` firing (a Rust process abort), which the source performs on
`File::open`, `read_exact` and `seek` failures; `err` is the `Err`
returned by the magic check. -/
inductive CartLoad where
  | panic
  | err (msg : String)
  | ok (c : CartridgeData)
deriving DecidableEq

/-- Model of `Read::read_exact` over an explicit byte stream: consume exactly `n`
bytes or fail. -/
def readExact (bytes : List Nat) (n : Nat) : Option (List Nat × List Nat) :=
  if n ≤ bytes.length then some (bytes.take n, bytes.drop n) else none

/-- Model of `Cartridge::new` (src/cartridge.rs) over the file's byte stream.
`File::open` failures are outside the byte-stream model; every
`read_exact(..).unwrap()` that fails is a `panic`.  The 512-byte trainer
seek is a plain drop (`Seek` past the end succeeds in Rust; the
following read then panics). -/
def cartridgeNew (bytes : List Nat) : CartLoad :=
  match readExact bytes 16 with
  | none => .panic
  | some (hb, rest) =>
    if [hb.getD 0 0, hb.getD 1 0, hb.getD 2 0, hb.getD 3 0] ≠
        [0x4E, 0x45, 0x53, 0x1A] then
      .err "File is not in iNES file format"
    else
      let mapper1 := hb.getD 6 0
      let rest := if mapper1 &&& 0x04 = 0x04 then rest.drop 512 else rest
      let mapper := (hb.getD 7 0 &&& 0xF0) ||| (mapper1 >>> 4)
      match readExact rest (16384 * hb.getD 4 0) with
      | none => .panic
      | some (prgRom, rest2) =>
        let chrIsRam := hb.getD 5 0 = 0
        let fourScreen := mapper1 &&& 0x08 = 0x08
        let vertical := mapper1 &&& 0x01 = 0x01
        let mirror :=
          if fourScreen then Mirroring.fourScreen
          else if vertical then Mirroring.vertical
          else Mirroring.horizontal
        if chrIsRam then
          .ok { prgRom := prgRom, chrRom := List.replicate 8192 0,
                chrIsRam := chrIsRam, mirror := mirror, mapper := mapper }
        else
          match readExact rest2 (8192 * hb.getD 5 0) with
          | none => .panic
          | some (chrRom, _) =>
            .ok { prgRom := prgRom, chrRom := chrRom,
                  chrIsRam := chrIsRam, mirror := mirror, mapper := mapper }

/-- Model of `Bus::read_prg_rom` (src/bus.rs) over the list-backed PRG vector,
with the Rust index-out-of-bounds panic surfaced as `none`. -/
def readPrgRomChecked (prgRom : List Nat) (addr : Nat) : Option Nat :=
  let a := addr - 0x8000
  let a := if prgRom.length = 0x4000 ∧ 0x4000 ≤ a then a - 0x4000 else a
  prgRom.get? a

/-- Modelled from the spec: entries of the per-opcode dispatch table of
src/opcodes.rs (which is not among the sources) for the opcodes used in
the concrete runs below, following the specification's standard 6502
table (§4.3: BRK 7 cycles; branches 2; immediate ALU ops 2; IND JMP 5). -/
def specLookup : Lookup := fun op =>
  if op = 0x00 then ⟨OpKind.BRK, AddressingMode.IMM, 7⟩
  else if op = 0x69 then ⟨OpKind.ADC, AddressingMode.IMM, 2⟩
  else if op = 0xA9 then ⟨OpKind.LDA, AddressingMode.IMM, 2⟩
  else if op = 0x4A then ⟨OpKind.LSR, AddressingMode.IMP, 2⟩
  else if op = 0xF0 then ⟨OpKind.BEQ, AddressingMode.REL, 2⟩
  else if op = 0x6C then ⟨OpKind.JMP, AddressingMode.IND, 5⟩
  else if op = 0x8D then ⟨OpKind.STA, AddressingMode.ABS, 4⟩
  else ⟨OpKind.XXX, AddressingMode.IMP, 2⟩

/-- A concrete mapper-0 cartridge image with 32 KiB of PRG given by
`prg` and zeroed CHR. -/
def cartEx (prg : Nat → Nat) : CartImage :=
  { prg := prg, prgLen := 0x8000, chr := fun _ => 0,
    mirror := Mirroring.horizontal, chrIsRam := false }

/-- A freshly constructed CPU (as `CPU::new`) over `cartEx prg`. -/
def mkCpu (prg : Nat → Nat) : Cpu := cpuNew (cartEx prg)

/-- Classifier for the eight conditional-branch operations, whose
bodies add to `cycles` directly (src/cpu.rs, `bcs` … `bvc`). -/
def isBranch (k : OpKind) : Bool :=
  match k with
  | .BCC | .BCS | .BEQ | .BMI | .BNE | .BPL | .BVC | .BVS => true
  | _ => false

/-- PRG bytes for `LDA`-free `ADC #$01` at 0x8000 (opcode 0x69). -/
def prgAdc : Nat → Nat := fun i => if i = 0 then 0x69 else if i = 1 then 0x01 else 0

/-- CPU about to execute `ADC #$01` with A = 0xFF and C = 0. -/
def adcState : Cpu := { mkCpu prgAdc with a := 0xFF, pc := 0x8000 }

/-- PRG bytes for `LSR A` at 0x8000 (opcode 0x4A). -/
def prgLsr : Nat → Nat := fun i => if i = 0 then 0x4A else 0

/-- CPU about to execute `LSR A` with A = 0x02 (operand bit 0 clear). -/
def lsrState : Cpu := { mkCpu prgLsr with a := 0x02, pc := 0x8000 }

/-- PRG bytes for `BEQ +0x10` at 0x8000 (opcode 0xF0). -/
def prgBeq : Nat → Nat := fun i => if i = 0 then 0xF0 else if i = 1 then 0x10 else 0

/-- CPU about to execute a taken `BEQ` (Z flag set) with no page cross. -/
def beqState : Cpu := { mkCpu prgBeq with status := 0x02, pc := 0x8000 }

/-- PRG bytes for `JMP ($10FF)` at 0x8000 (opcode 0x6C). -/
def prgJmpInd : Nat → Nat :=
  fun i => if i = 0 then 0x6C else if i = 1 then 0xFF else if i = 2 then 0x10 else 0

/-- CPU about to execute `JMP ($10FF)` with RAM holding 0x00 at 0x10FF
(CPU RAM index 0x0FF, which the zero default provides) and 0x30 at
0x1000 (CPU RAM index 0x000). -/
def jmpState : Cpu :=
  let c := mkCpu prgJmpInd
  { c with pc := 0x8000,
           bus := { c.bus with cpuVram := fun i => if i = 0 then 0x30 else 0 } }

/-- PRG bytes for `JMP ($20FF)` at 0x8000. -/
def prgJmp20 : Nat → Nat :=
  fun i => if i = 0 then 0x6C else if i = 1 then 0xFF else if i = 2 then 0x20 else 0

/-- CPU about to execute `JMP ($20FF)` after the writes
`mem[0x2000] ← 0x30` and `mem[0x20FF] ← 0x00` demanded by the claimed
scenario (both land in PPU registers on this memory map). -/
def jmp20State : Cpu :=
  let c := { mkCpu prgJmp20 with pc := 0x8000 }
  cpuWrite (cpuWrite c 0x2000 0x30) 0x20FF 0x00

/-- CPU about to execute `BRK` (opcode 0x00 at 0x8000) from an all-clear
status and stack pointer 0xFD. -/
def brkState : Cpu := { mkCpu (fun _ => 0) with pc := 0x8000, sp := 0xFD }

/-- A fresh PPU over zeroed CHR, horizontal mirroring. -/
def ppu0 : Ppu := ppuNew (fun _ => 0) Mirroring.horizontal false

/-- A PPU one tick before the vertical-blank tick (scanline 241,
cycle 1) with NMI enabled in the control register. -/
def ppu241 : Ppu := { ppu0 with scanline := 241, cycle := 1, controlRegister := 0x80 }

/-- An iNES byte stream whose header declares one 16 KiB PRG bank but
which contains no PRG bytes at all: shorter than the header-declared
size. -/
def shortRomBytes : List Nat :=
  [0x4E, 0x45, 0x53, 0x1A, 1, 0, 0, 0, 0, 0, 0, 0, 0, 0, 0, 0]

/-- Bit 7 of a value is what `x &&& 0x80 ≠ 0` tests. -/
lemma and128_ne_zero_iff (x : Nat) : x &&& 0x80 ≠ 0 ↔ x.testBit 7 := by
  rw [show (0x80 : Nat) = 2 ^ 7 from rfl, Nat.and_two_pow]
  cases h : x.testBit 7 <;> simp

/-- Masking with 0xFF is reduction modulo 256. -/
lemma and255_eq_mod (x : Nat) : x &&& 0xFF = x % 256 :=
  Nat.and_pow_two_sub_one_eq_mod x 8

/-- Masking with 0x3FFF is reduction modulo 0x4000. -/
lemma and_mask14_eq_mod (x : Nat) : x &&& 0x3FFF = x % 16384 :=
  Nat.and_pow_two_sub_one_eq_mod x 14

/-- Masking with 0x7FF is reduction modulo 0x800. -/
lemma and_mask11_eq_mod (x : Nat) : x &&& 0x7FF = x % 2048 :=
  Nat.and_pow_two_sub_one_eq_mod x 11

/-- Model of `cpuFetch` only touches the bus and the fetched byte. -/
lemma cpuFetch_status (lookup : Lookup) (s : Cpu) :
    (cpuFetch lookup s).status = s.status := by
  unfold cpuFetch cpuRead
  split <;> rfl

/-- Model of `cpuFetch` preserves the accumulator. -/
lemma cpuFetch_a (lookup : Lookup) (s : Cpu) : (cpuFetch lookup s).a = s.a := by
  unfold cpuFetch cpuRead
  split <;> rfl

/-- Reading each of the masked ADC flags back out of the four
`set_flag` updates recovers the flag that was stored (for any 8-bit
starting status). -/
lemma adcFlagReadback : ∀ st < 256, ∀ bC bZ bN bV : Bool,
    getFlag maskC (setFlag maskV bV (setFlag maskN bN (setFlag maskZ bZ
      (setFlag maskC bC st)))) = (if bC then 1 else 0) ∧
    getFlag maskZ (setFlag maskV bV (setFlag maskN bN (setFlag maskZ bZ
      (setFlag maskC bC st)))) = (if bZ then 1 else 0) ∧
    getFlag maskN (setFlag maskV bV (setFlag maskN bN (setFlag maskZ bZ
      (setFlag maskC bC st)))) = (if bN then 1 else 0) ∧
    getFlag maskV (setFlag maskV bV (setFlag maskN bN (setFlag maskZ bZ
      (setFlag maskC bC st)))) = (if bV then 1 else 0) := by
  set_option maxRecDepth 100000 in decide

/-- Reducing the right xor operand modulo 256 does not change bit 7 of
an and-chain ending in `&&& 0x80`. -/
lemma and128_xor_mod256 (a t X : Nat) :
    (X &&& (a ^^^ t % 256)) &&& 0x80 = (X &&& (a ^^^ t)) &&& 0x80 := by
  rw [show (0x80 : Nat) = 2 ^ 7 from rfl, Nat.and_two_pow, Nat.and_two_pow]
  congr 1
  rw [Nat.testBit_land, Nat.testBit_land, Nat.testBit_xor, Nat.testBit_xor,
      show (256 : Nat) = 2 ^ 8 from rfl, Nat.testBit_mod_two_pow]
  simp

/-- Claim C1 (counterexample): at A = 0xFF, M = 0x01, C = 0 the code
sets the carry (t = 256, `temp > 255`), but the claimed condition
`t > 256` is false there, so the claimed flag law `C = (t > 256)` does
not hold. -/
theorem C1_carry_counterexample :
    (fetchAndExecute specLookup adcState).a = 0x00 ∧
    getFlag maskC (fetchAndExecute specLookup adcState).status = 1 ∧
    ¬ (0xFF + 0x01 + 0 > 256) :=
  ⟨by decide, by decide, by decide⟩

/-- Claim C1 (amended): executing ADC computes `t = A + M + C` and
leaves `A = t mod 256` with `C = (t > 255)` (not `t > 256`),
`Z = ((t &&& 0xFF) == 0)`, `N` = bit 7 of `t`, and
`V` set iff `(~(A ^ M) & (A ^ t)) & 0x80` is nonzero. -/
theorem C1_adc_amended (lookup : Lookup) (s : Cpu) (hst : s.status < 256) :
    let M := (cpuFetch lookup s).fetched
    let t := s.a + M + getFlag maskC s.status
    let r := (opAdc lookup s).1
    r.a = t % 256 ∧
    getFlag maskC r.status = (if 255 < t then 1 else 0) ∧
    getFlag maskZ r.status = (if t % 256 = 0 then 1 else 0) ∧
    getFlag maskN r.status = (if t.testBit 7 then 1 else 0) ∧
    getFlag maskV r.status =
      (if (((s.a ^^^ M) ^^^ 0xFF) &&& (s.a ^^^ t)) &&& 0x80 ≠ 0 then 1 else 0) := by
  have hst2 : (cpuFetch lookup s).status < 256 := by rwa [cpuFetch_status]
  dsimp only
  unfold opAdc
  dsimp only
  rw [cpuFetch_a, cpuFetch_status]
  obtain ⟨h1, h2, h3, h4⟩ := adcFlagReadback _ hst2 _ _ _ _
  rw [cpuFetch_status] at h1 h2 h3 h4
  refine ⟨rfl, ?_, ?_, ?_, ?_⟩
  · rw [h1]; simp
  · rw [h2]; simp [and255_eq_mod]
  · rw [h3]
    congr 1
    simp only [decide_eq_true_eq, ne_eq]
    rw [show ∀ x : Nat, (¬ x &&& 0x80 = 0) = (x.testBit 7 = true) from
      fun x => by rw [eq_iff_iff]; exact and128_ne_zero_iff x]
  · rw [h4, and128_xor_mod256]
    simp

/-- Claim C1 (witness): the amended ADC law instantiated at the
concrete `ADC #$01` run with A = 0xFF. -/
theorem C1_adc_amended_witness :
    adcState.status < 256 ∧
    (opAdc specLookup adcState).1.a =
      (adcState.a + (cpuFetch specLookup adcState).fetched +
        getFlag maskC adcState.status) % 256 :=
  ⟨by decide, (C1_adc_amended specLookup adcState (by decide)).1⟩

/-- Claim C3 (code bug): executing `LSR A` with A = 0x02 — whose bit 0,
the bit shifted out, is clear — nevertheless sets the carry flag,
because the source computes C from bit 0 of the already-shifted result
(`temp & 0x0001`), i.e. from bit 1 of the operand; the stored result
`A = operand >> 1` matches the claim. -/
theorem C3_lsr_carry_divergence :
    (fetchAndExecute specLookup lsrState).a = 0x01 ∧
    lsrState.a &&& 0x01 = 0 ∧
    getFlag maskC (fetchAndExecute specLookup lsrState).status = 1 :=
  ⟨by decide, by decide, by decide⟩

/-- Claim C7: PPU palette addresses 0x3F10/0x3F14/0x3F18/0x3F1C alias
0x3F00/0x3F04/0x3F08/0x3F0C for both read and write — a write of `v` to
either member of a pair is read back (masked to 6 bits) at the other. -/
theorem C7_palette_mirror (p : Ppu) (v k : Nat)
    (hk : k = 0 ∨ k = 4 ∨ k = 8 ∨ k = 12) :
    ppuRead (ppuWrite p (0x3F10 + k) v) (0x3F00 + k) = v &&& 0x3F ∧
    ppuRead (ppuWrite p (0x3F00 + k) v) (0x3F10 + k) = v &&& 0x3F := by
  rcases hk with rfl | rfl | rfl | rfl <;>
    exact ⟨by simp [ppuWrite, ppuRead, paletteIndexAlias, and_mask14_eq_mod,
                    Nat.and_assoc],
           by simp [ppuWrite, ppuRead, paletteIndexAlias, and_mask14_eq_mod,
                    Nat.and_assoc]⟩

/-- Claim C7 (witness): writing 0x12 at 0x3F10 is visible at 0x3F00. -/
theorem C7_palette_mirror_witness :
    ((0:Nat) = 0 ∨ (0:Nat) = 4 ∨ (0:Nat) = 8 ∨ (0:Nat) = 12) ∧
    ppuRead (ppuWrite ppu0 (0x3F10 + 0) 0x12) (0x3F00 + 0) = 0x12 &&& 0x3F :=
  ⟨Or.inl rfl, (C7_palette_mirror ppu0 0x12 0 (Or.inl rfl)).1⟩

/-- Claim C10: the palette RAM is born all-zero, every palette write
stores `data &&& 0x3F` so entries stay ≤ 0x3F, and the master-palette
index computed from any palette read (`ppu_read … &&& 0x3F`, the
expression used by background and sprite rendering) is always in
bounds for the 64-entry `SYSTEM_PALLETE`. -/
theorem C10_palette_bound :
    (∀ (chr : Nat → Nat) (m : Mirroring) (r : Bool) (i : Nat),
        (ppuNew chr m r).palette i = 0) ∧
    (∀ p : Ppu, (∀ i, p.palette i ≤ 0x3F) →
        ∀ addr data i : Nat, (ppuWrite p addr data).palette i ≤ 0x3F) ∧
    (∀ (p : Ppu) (addr : Nat), ppuRead p addr &&& 0x3F < systemPalette.length) := by
  refine ⟨fun _ _ _ _ => rfl, ?_, ?_⟩
  · intro p hp addr data i
    unfold ppuWrite
    dsimp only
    split_ifs <;> try exact hp i
    dsimp only
    split
    · exact Nat.and_le_right
    · exact hp i
  · intro p addr
    have h : ppuRead p addr &&& 0x3F ≤ 0x3F := Nat.and_le_right
    have hlen : systemPalette.length = 64 := rfl
    omega

/-- Claim C10 (witness): the preservation law applied to a fresh PPU
and a palette write of 0xFF. -/
theorem C10_palette_bound_witness :
    (∀ i, ppu0.palette i ≤ 0x3F) ∧
    (ppuWrite ppu0 0x3F10 0xFF).palette 0 ≤ 0x3F :=
  ⟨fun _ => (by decide : (0:Nat) ≤ 0x3F),
   C10_palette_bound.2.1 ppu0 (fun _ => (by decide : (0:Nat) ≤ 0x3F)) 0x3F10 0xFF 0⟩

/-- A write below 0x2000 lands in CPU RAM at the mirrored index. -/
lemma memWrite_ram (b : Bus) (addr d : Nat) (h : addr ≤ 0x1FFF) :
    memWrite b addr d =
      { b with cpuVram := fun j => if j = (addr &&& 0x7FF) then d else b.cpuVram j } := by
  unfold memWrite
  rw [if_pos h]

/-- Model of `cpuWrite` below 0x2000 is the RAM update. -/
lemma cpuWrite_ram (s : Cpu) (addr d : Nat) (h : addr ≤ 0x1FFF) :
    cpuWrite s addr d =
      { s with bus := { s.bus with
          cpuVram := fun j => if j = (addr &&& 0x7FF) then d else s.bus.cpuVram j } } := by
  unfold cpuWrite
  rw [memWrite_ram _ _ _ h]

/-- A push whose stack slot lies in RAM is the explicit RAM update plus
the stack-pointer decrement. -/
lemma push_ram (s : Cpu) (v : Nat) (h : s.sp < 256) :
    push s v =
      { s with
        bus := { s.bus with
          cpuVram := fun j => if j = 0x0100 + s.sp then v else s.bus.cpuVram j },
        sp := wsub8 s.sp 1 } := by
  unfold push
  rw [cpuWrite_ram _ _ _ (by omega)]
  have e : (0x0100 + s.sp) &&& 0x7FF = 0x0100 + s.sp := by
    rw [and_mask11_eq_mod]
    omega
  rw [e]

/-- An 8-bit wrapping subtraction always yields a byte. -/
lemma wsub8_lt (a b : Nat) : wsub8 a b < 256 := Nat.mod_lt _ (by omega)

/-- A push never touches the cycle counter. -/
lemma push_cycles (s : Cpu) (v : Nat) : (push s v).cycles = s.cycles := rfl


/-- A read in 0x8000–0xFFFF is a pure PRG-ROM read. -/
lemma memRead_prg (b : Bus) (addr : Nat) (h1 : 0x8000 ≤ addr) (h2 : addr ≤ 0xFFFF) :
    memRead b addr = (readPrgRom b addr, b) := by
  unfold memRead
  rw [if_neg (by omega), if_neg (by omega), if_neg (by omega),
      if_neg (by omega), if_pos ⟨h1, h2⟩]

/-- Model of `cpuRead` of the PRG region returns the ROM byte and leaves the
state unchanged. -/
lemma cpuRead_prg (s : Cpu) (addr : Nat) (h1 : 0x8000 ≤ addr) (h2 : addr ≤ 0xFFFF) :
    cpuRead s addr = (readPrgRom s.bus addr, s) := by
  unfold cpuRead
  rw [memRead_prg _ _ h1 h2]

/-- Pulling the flags of the BRK status pipeline back out (8-bit
status). -/
lemma brkFlagReadback : ∀ st < 256,
    getFlag maskI (setFlag maskB false (setFlag maskB true (setFlag maskI true st))) = 1 := by
  set_option maxRecDepth 10000 in decide

/-- Claim C4 (counterexample): from an all-clear status, the status byte
BRK pushes is 0x14 — bit 5 (U) is clear, contradicting the claimed
`U = 1` in the pushed copy, and bit 2 (I) is already set, because the
source sets I before pushing rather than after. -/
theorem C4_brk_push_counterexample :
    (fetchAndExecute specLookup brkState).bus.cpuVram 0x1FB = 0x14 ∧
    (0x14 : Nat) &&& maskU = 0 ∧
    (0x14 : Nat) &&& maskI ≠ 0 :=
  ⟨by decide, by decide, by decide⟩

/-- Claim C4 (amended): BRK increments PC by 1, sets I to 1 *before*
pushing, pushes PC high then low, then pushes the status byte with B = 1
(and the just-set I; U is left as it was), clears B again, and loads PC
from the little-endian vector at 0xFFFE/0xFFFF. -/
theorem C4_brk_amended (s : Cpu) (hsp : s.sp < 256) (hst : s.status < 256) :
    let r := (opBrk s).1
    let pc1 := (s.pc + 1) % 65536
    let pushed := setFlag maskB true (setFlag maskI true s.status)
    r.bus.cpuVram (0x0100 + s.sp) = (pc1 >>> 8) &&& 0x00FF ∧
    r.bus.cpuVram (0x0100 + wsub8 s.sp 1) = pc1 &&& 0x00FF ∧
    r.bus.cpuVram (0x0100 + wsub8 (wsub8 s.sp 1) 1) = pushed ∧
    r.sp = wsub8 (wsub8 (wsub8 s.sp 1) 1) 1 ∧
    r.status = setFlag maskB false pushed ∧
    getFlag maskI r.status = 1 ∧
    r.addrAbs = 0xFFFE ∧
    r.pc = ((memRead s.bus 0xFFFF).1 <<< 8) ||| (memRead s.bus 0xFFFE).1 := by
  have h1 : wsub8 s.sp 1 < 256 := wsub8_lt _ _
  have h2 : wsub8 (wsub8 s.sp 1) 1 < 256 := wsub8_lt _ _
  dsimp only
  unfold opBrk
  dsimp only
  simp only [push_ram, hsp, h1, h2]
  rw [cpuRead_prg _ 65534 (by omega) (by omega)]
  dsimp only
  rw [cpuRead_prg _ (65534 + 1) (by omega) (by omega)]
  dsimp only
  rw [memRead_prg _ 65535 (by omega) (by omega), memRead_prg _ 65534 (by omega) (by omega)]
  dsimp only
  refine ⟨?_, ?_, ?_, rfl, rfl, brkFlagReadback s.status hst, rfl, rfl⟩ <;>
    · simp only [wsub8]
      split_ifs <;> first | rfl | (exfalso; omega)

/-- Claim C4 (witness): the amended BRK law at a concrete state. -/
theorem C4_brk_amended_witness :
    brkState.sp < 256 ∧ brkState.status < 256 ∧
    (opBrk brkState).1.bus.cpuVram (0x0100 + brkState.sp) =
      ((((brkState.pc + 1) % 65536) >>> 8) &&& 0x00FF) :=
  ⟨by decide, by decide, (C4_brk_amended brkState (by decide) (by decide)).1⟩

/-- Claim C6 (counterexample): the claimed concrete scenario places the
pointer page at 0x2000–0x20FF, which on this memory map is PPU register
space, not plain memory: after performing the writes
`mem[0x2000] ← 0x30` and `mem[0x20FF] ← 0x00`, executing `JMP ($20FF)`
leaves PC = 0x0000, not the claimed 0x3000 (reads of 0x2000 return 0,
and 0x20FF reads the PPU data buffer). -/
theorem C6_jmp_ppu_page_counterexample :
    (fetchAndExecute specLookup jmp20State).pc = 0x0000 ∧
    (0x0000 : Nat) ≠ 0x3000 :=
  ⟨by decide, by decide⟩

/-- Claim C6 (amended): when the IND pointer's low byte is 0xFF the high
byte of the target is fetched from `ptr &&& 0xFF00` on the same page
(the 6502 wrap bug) — and, concretely, `JMP ($10FF)` with RAM holding
0x00 at 0x10FF and 0x30 at 0x1000 sets PC to 0x3000. -/
theorem C6_ind_wrap_amended (s : Cpu) :
    ((cpuRead s s.pc).1 = 0xFF →
      (amInd s).1.addrAbs =
        (let s1 : Cpu := { (cpuRead s s.pc).2 with pc := ((cpuRead s s.pc).2.pc + 1) % 65536 }
         let r2 := cpuRead s1 s1.pc
         let s2 : Cpu := { r2.2 with pc := (r2.2.pc + 1) % 65536 }
         let ptr := (r2.1 <<< 8) ||| 0xFF
         let rh := cpuRead s2 (ptr &&& 0xFF00)
         ((rh.1 <<< 8) ||| (cpuRead rh.2 ptr).1))) ∧
    (fetchAndExecute specLookup jmpState).pc = 0x3000 := by
  constructor
  · intro h
    unfold amInd
    dsimp only
    rw [h]
    rw [if_pos rfl]
  · decide

/-- Claim C6 (witness): the wrap rule applied at the concrete
`JMP ($10FF)` state, positioned at the operand bytes. -/
theorem C6_ind_wrap_amended_witness :
    (cpuRead { jmpState with pc := 0x8001 } 0x8001).1 = 0xFF ∧
    (amInd { jmpState with pc := 0x8001 }).1.addrAbs = 0x3000 := by
  refine ⟨by decide, ?_⟩
  have h := (C6_ind_wrap_amended { jmpState with pc := 0x8001 }).1 (by decide)
  rw [h]
  decide

/-- Model of `cpuFetch` does not touch the cycle counter. -/
lemma cpuFetch_cycles (lookup : Lookup) (s : Cpu) :
    (cpuFetch lookup s).cycles = s.cycles := by
  unfold cpuFetch cpuRead
  split <;> rfl

/-- No addressing-mode resolver touches the cycle counter. -/
lemma addrDispatch_cycles (mode : AddressingMode) (s : Cpu) :
    ((addrDispatch mode s).1).cycles = s.cycles := by
  cases mode
  case REL =>
    show ((amRel s).1).cycles = s.cycles
    unfold amRel
    dsimp only
    split <;> rfl
  case IND =>
    show ((amInd s).1).cycles = s.cycles
    unfold amInd
    dsimp only
    split <;> rfl
  all_goals rfl

/-- A bus read leaves the cycle counter alone. -/
lemma cpuRead_cycles (s : Cpu) (addr : Nat) : ((cpuRead s addr).2).cycles = s.cycles := rfl

/-- A bus write leaves the cycle counter alone. -/
lemma cpuWrite_cycles (s : Cpu) (addr d : Nat) : (cpuWrite s addr d).cycles = s.cycles := rfl

/-- No operation other than the eight branches touches the cycle
counter. -/
lemma opDispatch_cycles (lookup : Lookup) (k : OpKind) (s : Cpu)
    (h : isBranch k = false) :
    ((opDispatch lookup k s).1).cycles = s.cycles := by
  cases k <;> first
    | exact absurd h (by decide)
    | (simp only [opDispatch, opAdc, opSbc, opAnd, opEor, opOra, opAsl, opLsr,
        opRol, opRor, opCmp, opCpx, opCpy, opInc, opDec, opInx, opIny, opDex,
        opDey, opBit, opJmp, opJsr, opRts, opLda, opLdx, opLdy, opSta, opStx,
        opSty, opTax, opTay, opTsx, opTxa, opTxs, opTya, opClc, opCld, opCli,
        opClv, opSec, opSed, opSei, opPha, opPhp, opPla, opPlp, opRti, opBrk,
        opNop, opXxx, push_cycles, cpuWrite_cycles, cpuRead_cycles, cpuFetch_cycles]
       try dsimp only
       try split
       all_goals rfl)

/-- Claim C5 (counterexample): on a taken `BEQ` the branch body itself
adds a cycle, so the value `cycles_remaining` holds after the fetch (3)
is not the base cost (2) plus the AND of the two returned penalties
(both 0 here). -/
theorem C5_branch_cycles_counterexample :
    (fetchAndExecute specLookup beqState).cycles = 3 ∧
    (specLookup 0xF0).cycles = 2 ∧
    (addrDispatch AddressingMode.REL
      { beqState with opcode := 0xF0, pc := 0x8001, cycles := 2 }).2 = 0 ∧
    (opDispatch specLookup OpKind.BEQ
      (addrDispatch AddressingMode.REL
        { beqState with opcode := 0xF0, pc := 0x8001, cycles := 2 }).1).2 = 0 ∧
    (3 : Nat) ≠ 2 + (0 &&& 0) :=
  ⟨by decide, by decide, by decide, by decide, by decide⟩

/-- Claim C5 (amended): after an opcode fetch, `cycles_remaining` equals
the cycle counter as the operation left it (base cost plus any
branch-taken increments) plus the bitwise AND of the addressing-mode and
operation penalties; for every non-branch operation the operation leaves
the counter at the base cost; and the ABX/ABY page-cross penalty is 1
exactly when `(addr_abs &&& 0xFF00) ≠ (hi <<< 8)` after adding the index
register. -/
theorem C5_cycle_accounting_amended (lookup : Lookup) (s : Cpu) :
    (let r := cpuRead s s.pc
     let s1 : Cpu := { r.2 with opcode := r.1, pc := (r.2.pc + 1) % 65536 }
     let instr := lookup s1.opcode
     let s2 : Cpu := { s1 with cycles := instr.cycles }
     let ra := addrDispatch instr.addrmode s2
     let ro := opDispatch lookup instr.operate ra.1
     (fetchAndExecute lookup s).cycles = (ro.1.cycles + (ra.2 &&& ro.2)) % 256 ∧
     (isBranch instr.operate = false → ro.1.cycles = instr.cycles)) ∧
    (∀ t : Cpu,
      (let r1 := cpuRead t t.pc
       let t1 : Cpu := { r1.2 with pc := (r1.2.pc + 1) % 65536 }
       let r2 := cpuRead t1 t1.pc
       ((amAbx t).2 = if (amAbx t).1.addrAbs &&& 0xFF00 ≠ r2.1 <<< 8 then 1 else 0) ∧
       ((amAby t).2 = if (amAby t).1.addrAbs &&& 0xFF00 ≠ r2.1 <<< 8 then 1 else 0))) := by
  refine ⟨⟨rfl, ?_⟩, fun t => ⟨rfl, rfl⟩⟩
  intro hb
  rw [opDispatch_cycles _ _ _ hb, addrDispatch_cycles]

/-- Claim C5 (witness): the amended accounting at the taken-`BEQ` state
(the branch left the counter at 3, the AND term is 0) and the non-branch
part at the `ADC` state. -/
theorem C5_cycle_accounting_amended_witness :
    (fetchAndExecute specLookup beqState).cycles = (3 + (0 &&& 0)) % 256 ∧
    isBranch (specLookup 0x69).operate = false ∧
    (opDispatch specLookup (specLookup 0x69).operate
      (addrDispatch (specLookup 0x69).addrmode
        { adcState with opcode := 0x69, pc := 0x8001, cycles := 2 }).1).1.cycles =
      (specLookup 0x69).cycles :=
  ⟨(C5_cycle_accounting_amended specLookup beqState).1.1, by decide,
   (C5_cycle_accounting_amended specLookup adcState).1.2 (by decide)⟩

/-- Taking a prefix does not change the bytes it keeps. -/
lemma getD_take (l : List Nat) (i n : Nat) (h : i < n) :
    (l.take n).getD i 0 = l.getD i 0 := by
  simp [List.getD, List.getElem?_take, h]

/-- Claim C9 (counterexample): an input whose header declares one
16 KiB PRG bank but which ends right after the header makes
`Cartridge::new` abort through `read_exact(..).unwrap()` — a panic, not
a returned `ShortRead` error. -/
theorem C9_short_input_panics :
    cartridgeNew shortRomBytes = CartLoad.panic := by decide

/-- Claim C9 (amended): construction returns an error only for a bad
magic (a string, not a typed `BadMagic`); an input shorter than the
16-byte header or than the header-declared size aborts via `unwrap`
(panic), as do I/O failures; and the PRG read — the one bus access that
indexes a `Vec` with an unchecked index — is total for mapper-0 PRG
sizes (16 or 32 KiB). -/
theorem C9_error_handling_amended :
    (∀ bytes : List Nat, bytes.length < 16 → cartridgeNew bytes = CartLoad.panic) ∧
    (∀ bytes : List Nat, 16 ≤ bytes.length →
      [bytes.getD 0 0, bytes.getD 1 0, bytes.getD 2 0, bytes.getD 3 0] ≠
        [0x4E, 0x45, 0x53, 0x1A] →
      cartridgeNew bytes = CartLoad.err "File is not in iNES file format") ∧
    (∀ prgRom : List Nat, prgRom.length = 0x4000 ∨ prgRom.length = 0x8000 →
      ∀ addr : Nat, 0x8000 ≤ addr → addr ≤ 0xFFFF →
      (readPrgRomChecked prgRom addr).isSome) := by
  refine ⟨?_, ?_, ?_⟩
  · intro bytes h
    unfold cartridgeNew readExact
    rw [if_neg (by omega)]
  · intro bytes h hm
    unfold cartridgeNew readExact
    rw [if_pos h]
    have e0 := getD_take bytes 0 16 (by omega)
    have e1 := getD_take bytes 1 16 (by omega)
    have e2 := getD_take bytes 2 16 (by omega)
    have e3 := getD_take bytes 3 16 (by omega)
    dsimp only
    rw [e0, e1, e2, e3, if_pos hm]
  · intro prgRom hl addr h1 h2
    unfold readPrgRomChecked
    dsimp only
    split_ifs with hc
    · have hidx : addr - 0x8000 - 0x4000 < prgRom.length := by omega
      simp [List.get?_eq_getElem?, List.getElem?_eq_getElem, hidx]
    · have hidx : addr - 0x8000 < prgRom.length := by
        rcases hl with hl | hl <;> omega
      simp [List.get?_eq_getElem?, List.getElem?_eq_getElem, hidx]

/-- Claim C9 (witness): the bad-magic branch at a concrete all-zero
header, and totality of the PRG read at the reset vector for a 32 KiB
image. -/
theorem C9_error_handling_amended_witness :
    (16 ≤ (List.replicate 16 0).length ∧
      cartridgeNew (List.replicate 16 0) =
        CartLoad.err "File is not in iNES file format") ∧
    ((List.replicate 0x8000 0).length = 0x4000 ∨
        (List.replicate 0x8000 0).length = 0x8000) ∧
    (readPrgRomChecked (List.replicate 0x8000 0) 0xFFFC).isSome :=
  ⟨⟨by decide, C9_error_handling_amended.2.1 (List.replicate 16 0) (by decide) (by decide)⟩,
   Or.inr (List.length_replicate 0x8000 0),
   C9_error_handling_amended.2.2 (List.replicate 0x8000 0)
     (Or.inr (List.length_replicate 0x8000 0)) 0xFFFC (by decide) (by decide)⟩

/-- A bus read never changes the OAM contents. -/
lemma memRead_snd_oam (b : Bus) (addr : Nat) :
    ((memRead b addr).2).ppu.oam = b.ppu.oam := by
  unfold memRead readStatusRegister readData incrementVramAddr incrementAddressRegister
  dsimp only
  split_ifs <;> rfl

/-- A bus read never changes the OAM address. -/
lemma memRead_snd_oamAddr (b : Bus) (addr : Nat) :
    ((memRead b addr).2).ppu.oamAddr = b.ppu.oamAddr := by
  unfold memRead readStatusRegister readData incrementVramAddr incrementAddressRegister
  dsimp only
  split_ifs <;> rfl

/-- One DMA iteration advances the OAM address by one (mod 256). -/
lemma dmaStep_oamAddr (b : Bus) (addr : Nat) :
    (dmaStep b addr).ppu.oamAddr = (b.ppu.oamAddr + 1) % 256 := by
  unfold dmaStep writeToOamData
  dsimp only
  rw [memRead_snd_oamAddr]

/-- One DMA iteration stores the byte it read at the current OAM
address and leaves the rest of OAM alone. -/
lemma dmaStep_oam (b : Bus) (addr j : Nat) :
    (dmaStep b addr).ppu.oam j =
      if j = b.ppu.oamAddr then (memRead b addr).1 else b.ppu.oam j := by
  unfold dmaStep writeToOamData
  dsimp only
  rw [memRead_snd_oamAddr, memRead_snd_oam]

/-- Unrolling one iteration of the DMA loop. -/
lemma dmaIterate_succ (b : Bus) (base n : Nat) :
    dmaIterate b base (n + 1) = dmaStep (dmaIterate b base n) (base + n) := by
  unfold dmaIterate
  rw [List.range_succ, List.foldl_append]
  rfl

/-- After `n` DMA iterations the OAM address has advanced by `n`
(mod 256). -/
lemma dmaIterate_oamAddr (b : Bus) (base : Nat) (hoam : b.ppu.oamAddr < 256) :
    ∀ n : Nat, (dmaIterate b base n).ppu.oamAddr = (b.ppu.oamAddr + n) % 256 := by
  intro n
  induction n with
  | zero => show b.ppu.oamAddr = (b.ppu.oamAddr + 0) % 256; omega
  | succ n ih => rw [dmaIterate_succ, dmaStep_oamAddr, ih]; omega

/-- After `n ≤ 256` DMA iterations, slot `oam_addr₀ + k` (mod 256)
holds precisely the byte read in iteration `k`, for every `k < n`. -/
lemma dmaIterate_oam (b : Bus) (base : Nat) (hoam : b.ppu.oamAddr < 256) :
    ∀ n : Nat, n ≤ 256 → ∀ k : Nat, k < n →
      (dmaIterate b base n).ppu.oam ((b.ppu.oamAddr + k) % 256) =
        (memRead (dmaIterate b base k) (base + k)).1 := by
  intro n
  induction n with
  | zero => intro _ k hk; omega
  | succ n ih =>
    intro hn k hk
    rw [dmaIterate_succ, dmaStep_oam, dmaIterate_oamAddr b base hoam n]
    by_cases hkn : k = n
    · subst hkn
      rw [if_pos rfl]
    · rw [if_neg (by omega)]
      exact ih (by omega) k (by omega)

/-- Claim C2 (counterexample): a write to 0x4014 leaves the CPU
cycles-remaining counter exactly as it was — the ≥ 513-cycle DMA cost
demanded by the claim is never added. -/
theorem C2_dma_cycles_counterexample :
    (cpuWrite (mkCpu (fun _ => 0)) 0x4014 0x02).cycles = (mkCpu (fun _ => 0)).cycles ∧
    ¬ ((mkCpu (fun _ => 0)).cycles + 513 ≤
        (cpuWrite (mkCpu (fun _ => 0)) 0x4014 0x02).cycles) :=
  ⟨rfl, by decide⟩

/-- Claim C2 (amended): writing `d` to 0x4014 copies the 256 bytes read
through the bus from `(d <<< 8) + 0, …, (d <<< 8) + 255`, in increasing
address order, into OAM starting at the current OAM address and wrapping
modulo 256 — but adds no CPU cycles: the cycles-remaining counter is
untouched by every bus write. -/
theorem C2_oam_dma_amended (b : Bus) (d k : Nat)
    (hoam : b.ppu.oamAddr < 256) (hk : k < 256) :
    ((memWrite b 0x4014 d).ppu.oam ((b.ppu.oamAddr + k) % 256) =
      (memRead (dmaIterate b (d <<< 8) k) ((d <<< 8) + k)).1) ∧
    (∀ (s : Cpu) (d2 : Nat), (cpuWrite s 0x4014 d2).cycles = s.cycles) := by
  constructor
  · have e : memWrite b 0x4014 d = dmaIterate b (d <<< 8) 256 := by
      unfold memWrite
      rw [if_neg (by omega), if_neg (by omega), if_pos rfl]
    rw [e]
    exact dmaIterate_oam b (d <<< 8) hoam 256 le_rfl k hk
  · intro s d2
    exact cpuWrite_cycles s 0x4014 d2

/-- Claim C2 (witness): the DMA copy law at slot 0 of a fresh bus. -/
theorem C2_oam_dma_amended_witness :
    (busNew (cartEx (fun _ => 0))).ppu.oamAddr < 256 ∧ (0 : Nat) < 256 ∧
    (memWrite (busNew (cartEx (fun _ => 0))) 0x4014 0).ppu.oam
        (((busNew (cartEx (fun _ => 0))).ppu.oamAddr + 0) % 256) =
      (memRead (dmaIterate (busNew (cartEx (fun _ => 0))) (0 <<< 8) 0) ((0 <<< 8) + 0)).1 :=
  ⟨by decide, by decide,
   (C2_oam_dma_amended (busNew (cartEx (fun _ => 0))) 0 0 (by decide) (by decide)).1⟩

/-- A bus read never raises or clears the NMI line. -/
lemma memRead_snd_nmi (b : Bus) (addr : Nat) :
    ((memRead b addr).2).ppu.nmi = b.ppu.nmi := by
  unfold memRead readStatusRegister readData incrementVramAddr incrementAddressRegister
  dsimp only
  split_ifs <;> rfl

/-- Model of `ppu_write` never touches the NMI line. -/
lemma ppuWrite_nmi (p : Ppu) (addr d : Nat) : (ppuWrite p addr d).nmi = p.nmi := by
  unfold ppuWrite
  dsimp only
  split_ifs <;> rfl

/-- The scroll-register write never touches the NMI line. -/
lemma writeToScrollRegister_nmi (p : Ppu) (d : Nat) :
    (writeToScrollRegister p d).nmi = p.nmi := by
  unfold writeToScrollRegister
  split <;> rfl

/-- The 0x2007 data write never touches the NMI line. -/
lemma writeData_nmi (p : Ppu) (d : Nat) : (writeData p d).nmi = p.nmi := by
  unfold writeData incrementVramAddr incrementAddressRegister
  dsimp only
  exact ppuWrite_nmi p p.addressRegister d

/-- No PPU register write touches the NMI line. -/
lemma ppuRegWrite_nmi (p : Ppu) (r d : Nat) : (ppuRegWrite p r d).nmi = p.nmi := by
  unfold ppuRegWrite
  split_ifs <;> first
    | rfl
    | exact writeToScrollRegister_nmi p d
    | exact writeData_nmi p d

/-- A DMA iteration never touches the NMI line. -/
lemma dmaStep_nmi (b : Bus) (addr : Nat) : (dmaStep b addr).ppu.nmi = b.ppu.nmi := by
  unfold dmaStep writeToOamData
  dsimp only
  rw [memRead_snd_nmi]

/-- The DMA loop never touches the NMI line. -/
lemma dmaIterate_nmi (b : Bus) (base : Nat) :
    ∀ n : Nat, (dmaIterate b base n).ppu.nmi = b.ppu.nmi := by
  intro n
  induction n with
  | zero => rfl
  | succ n ih => rw [dmaIterate_succ, dmaStep_nmi, ih]

/-- No bus write touches the NMI line. -/
lemma memWrite_nmi (b : Bus) (addr d : Nat) : (memWrite b addr d).ppu.nmi = b.ppu.nmi := by
  unfold memWrite
  split_ifs with h1 h2 h3 h4
  · rfl
  · exact ppuRegWrite_nmi b.ppu (addr % 8) d
  · exact dmaIterate_nmi b (d <<< 8) 256
  · dsimp only
    split <;> rfl
  · rfl

/-- Model of `cpuRead` never touches the NMI line. -/
lemma cpuRead_snd_nmi (s : Cpu) (addr : Nat) :
    ((cpuRead s addr).2).bus.ppu.nmi = s.bus.ppu.nmi := by
  unfold cpuRead
  dsimp only
  exact memRead_snd_nmi s.bus addr

/-- Model of `cpuWrite` never touches the NMI line. -/
lemma cpuWrite_nmi (s : Cpu) (addr d : Nat) :
    (cpuWrite s addr d).bus.ppu.nmi = s.bus.ppu.nmi := by
  unfold cpuWrite
  dsimp only
  exact memWrite_nmi s.bus addr d

/-- Unfolding a push to its bus-level effect. -/
lemma push_char (s : Cpu) (v : Nat) :
    push s v = { s with bus := memWrite s.bus (0x0100 + s.sp) v, sp := wsub8 s.sp 1 } := rfl

/-- Unfolding a CPU read to its bus-level effect. -/
lemma cpuRead_char (s : Cpu) (a : Nat) :
    cpuRead s a = ((memRead s.bus a).1, { s with bus := (memRead s.bus a).2 }) := rfl

/-- Unfolding a CPU write to its bus-level effect. -/
lemma cpuWrite_char (s : Cpu) (a d : Nat) :
    cpuWrite s a d = { s with bus := memWrite s.bus a d } := rfl

/-- Model of `cpuFetch` never touches the NMI line. -/
lemma cpuFetch_nmi (lookup : Lookup) (s : Cpu) :
    (cpuFetch lookup s).bus.ppu.nmi = s.bus.ppu.nmi := by
  unfold cpuFetch
  dsimp only
  split
  · exact cpuRead_snd_nmi s s.addrAbs
  · rfl

/-- A taken branch never touches the NMI line. -/
lemma branchTaken_nmi (s : Cpu) : (branchTaken s).bus.ppu.nmi = s.bus.ppu.nmi := by
  unfold branchTaken
  dsimp only
  split <;> rfl

/-- No addressing-mode resolver touches the NMI line. -/
lemma addrDispatch_nmi (mode : AddressingMode) (s : Cpu) :
    ((addrDispatch mode s).1).bus.ppu.nmi = s.bus.ppu.nmi := by
  cases mode <;>
    simp only [addrDispatch, amImp, amImm, amZp0, amZpx, amZpy, amRel, amAbs,
      amAbx, amAby, amInd, amIzx, amIzy, cpuRead_char, memRead_snd_nmi] <;>
    first
      | rfl
      | (split <;> simp only [cpuRead_char, memRead_snd_nmi])

/-- No operation touches the NMI line. -/
lemma opDispatch_nmi (lookup : Lookup) (k : OpKind) (s : Cpu) :
    ((opDispatch lookup k s).1).bus.ppu.nmi = s.bus.ppu.nmi := by
  cases k <;>
    simp only [opDispatch, opAdc, opSbc, opAnd, opEor, opOra, opAsl, opLsr,
      opRol, opRor, opCmp, opCpx, opCpy, opInc, opDec, opInx, opIny, opDex,
      opDey, opBit, opJmp, opJsr, opRts, opLda, opLdx, opLdy, opSta, opStx,
      opSty, opTax, opTay, opTsx, opTxa, opTxs, opTya, opClc, opCld, opCli,
      opClv, opSec, opSed, opSei, opPha, opPhp, opPla, opPlp, opRti, opBrk,
      opNop, opXxx, opBcc, opBcs, opBeq, opBne, opBmi, opBpl, opBvc, opBvs,
      push_char, cpuRead_char, cpuWrite_char, cpuFetch_nmi, branchTaken_nmi,
      memRead_snd_nmi, memWrite_nmi] <;>
    first
      | rfl
      | (split <;>
          simp only [push_char, cpuRead_char, cpuWrite_char, cpuFetch_nmi,
            branchTaken_nmi, memRead_snd_nmi, memWrite_nmi])

/-- Fetch/decode/execute never touches the NMI line. -/
lemma fetchAndExecute_nmi (lookup : Lookup) (s : Cpu) :
    (fetchAndExecute lookup s).bus.ppu.nmi = s.bus.ppu.nmi := by
  simp only [fetchAndExecute, opDispatch_nmi, addrDispatch_nmi, cpuRead_char,
    memRead_snd_nmi]

/-- The NMI service sequence itself never touches the NMI line (it only
pushes to the stack and reads the vector). -/
lemma cpuNmiSeq_nmi (s : Cpu) : (cpuNmiSeq s).bus.ppu.nmi = s.bus.ppu.nmi := by
  simp only [cpuNmiSeq, push_char, cpuRead_char, memRead_snd_nmi, memWrite_nmi]

/-- The CPU-cycle phase never touches the NMI line. -/
lemma cpuCycPhase_nmi (lookup : Lookup) (s : Cpu) :
    (cpuCycPhase lookup s).bus.ppu.nmi = s.bus.ppu.nmi := by
  unfold cpuCycPhase
  dsimp only
  split_ifs <;> simp only [fetchAndExecute_nmi]

/-- Claim C8: at scanline 241 cycle 1 the PPU tick sets the
vertical-blank status bit and raises the NMI line exactly when control
bit 7 is set; and on every system tick the NMI line, if up after the PPU
tick, is serviced by the NMI sequence and cleared within that same tick
— hence before any later instruction fetch. -/
theorem C8_vblank_nmi :
    (∀ p : Ppu, p.scanline = 241 → p.cycle = 1 → p.nmi = false →
      ((ppuClock p).statusRegister = p.statusRegister ||| 0x80 ∧
       ((ppuClock p).nmi = true ↔ p.controlRegister &&& 0x80 ≠ 0))) ∧
    (∀ (lookup : Lookup) (s : Cpu),
      (cpuClock lookup s).bus.ppu.nmi = false ∧
      ((ppuClock s.bus.ppu).nmi = true →
        cpuClock lookup s =
          (let s2 : Cpu := cpuCycPhase lookup
             { s with bus := { s.bus with ppu := ppuClock s.bus.ppu } }
           let s3 : Cpu := cpuNmiSeq
             { s2 with bus := { s2.bus with ppu := { s2.bus.ppu with nmi := false } } }
           { s3 with sysClock := (s3.sysClock + 1) % 4294967296 }))) := by
  constructor
  · intro p h1 h2 h3
    have c1 : ¬ (p.scanline < 240 ∧ 1 ≤ p.cycle ∧ p.cycle ≤ 256) := by omega
    have c2 : p.scanline = 241 ∧ p.cycle = 1 := ⟨h1, h2⟩
    have hr : ppuRenderPhase p = p := by
      unfold ppuRenderPhase
      rw [if_neg c1]
    have hv : ppuVblankPhase p =
        (if p.controlRegister &&& 0x80 ≠ 0 then
          { p with statusRegister := p.statusRegister ||| 0x80, nmi := true }
        else { p with statusRegister := p.statusRegister ||| 0x80 }) := by
      unfold ppuVblankPhase
      rw [if_pos c2]
    unfold ppuClock
    rw [hr, hv]
    by_cases hc : p.controlRegister &&& 0x80 ≠ 0
    · rw [if_pos hc]
      have hf : ppuFlagClearPhase
          { p with statusRegister := p.statusRegister ||| 0x80, nmi := true } =
          { p with statusRegister := p.statusRegister ||| 0x80, nmi := true } := by
        unfold ppuFlagClearPhase
        rw [if_neg (by dsimp only; omega)]
      rw [hf]
      unfold ppuAdvancePhase
      dsimp only
      rw [if_neg (by omega : ¬ 341 ≤ p.cycle + 1)]
      exact ⟨rfl, by simp [hc]⟩
    · rw [if_neg hc]
      have hf : ppuFlagClearPhase { p with statusRegister := p.statusRegister ||| 0x80 } =
          { p with statusRegister := p.statusRegister ||| 0x80 } := by
        unfold ppuFlagClearPhase
        rw [if_neg (by dsimp only; omega)]
      rw [hf]
      unfold ppuAdvancePhase
      dsimp only
      rw [if_neg (by omega : ¬ 341 ≤ p.cycle + 1)]
      refine ⟨rfl, ?_⟩
      rw [h3]
      simp [hc]
  · intro lookup s
    have hmid :
        (cpuCycPhase lookup
          { s with bus := { s.bus with ppu := ppuClock s.bus.ppu } }).bus.ppu.nmi =
          (ppuClock s.bus.ppu).nmi := by
      rw [cpuCycPhase_nmi]
    constructor
    · unfold cpuClock
      dsimp only
      split_ifs with h
      · simp only [cpuNmiSeq_nmi]
      · simpa using h
    · intro hn
      unfold cpuClock
      dsimp only
      rw [if_pos (hmid.trans hn)]

/-- Claim C8 (witness): the vblank part applied at the concrete PPU
sitting at scanline 241, cycle 1 with NMI enabled. -/
theorem C8_vblank_nmi_witness :
    ppu241.scanline = 241 ∧ ppu241.cycle = 1 ∧ ppu241.nmi = false ∧
    (ppuClock ppu241).nmi = true :=
  ⟨rfl, rfl, rfl,
   (C8_vblank_nmi.1 ppu241 rfl rfl rfl).2.mpr (by decide)⟩

end Runes
